import Mathlib

/-!
Shallow embedding of the annotation-to-markup conversion engine of
`biofid_demo/uima.py` (the FID-Biodiversity workshop-demo repository),
together with theorems settling the frozen claims about it.

Modelling conventions:
* Python `dict`s (insertion-ordered) are association lists with unique keys;
  `defaultdict(list)` is an association list of `String × List String` with
  append semantics.
* Python values that can be a string, a list of strings, or a set of strings
  are `PyVal`.  Python `set`s have no deterministic iteration order; they are
  modelled as insertion-ordered duplicate-free lists.
* Machine strings are Lean `String`s; `str.lower` is modelled for ASCII
  (every name handled by the pipeline is ASCII).
* Exceptions are `Except PyErr`; only the exception *class* distinctions the
  source observes (`TypeError` caught in `AnnotationList.add`,
  `XMLSyntaxError` caught in `fast_iter`) matter.
* The concrete regular expressions of the source are compiled by hand into
  executable matchers, one per pattern, with the Python `re` semantics
  (leftmost match, greedy quantifiers) worked out in comments.
* Python object identity (annotations are shared, mutable objects appearing
  in several index lists) is modelled by an arena: annotations live in a
  `List Annot` and every index list stores arena positions (`Nat`).
-/

namespace Uima

/-! ### Basic Python-string helpers -/

/-- The `}` character, used by `remove_namespace`. -/
def rbraceChar : Char := Char.ofNat 125

/-- Does `needle` occur at the head of `hay`? -/
def charsStartWith : List Char → List Char → Bool
  | [], _ => true
  | _ :: _, [] => false
  | a :: as, b :: bs => a == b && charsStartWith as bs

/-- Does `needle` occur contiguously anywhere inside `hay`?
(Python `needle in hay`.) -/
def charsHasSub (needle : List Char) : List Char → Bool
  | [] => charsStartWith needle []
  | c :: cs => charsStartWith needle (c :: cs) || charsHasSub needle cs

/-- Python `needle in hay` on strings. -/
def strContains (hay needle : String) : Bool :=
  charsHasSub needle.data hay.data

/-- ASCII lower-casing of one character (model of `str.lower`; all names fed
through the pipeline are ASCII). -/
def lowerChar (c : Char) : Char :=
  if 'A' ≤ c && c ≤ 'Z' then Char.ofNat (c.toNat + 32) else c

/-- Model of Python `str.lower()` (ASCII fragment). -/
def pyLower (s : String) : String := String.mk (s.data.map lowerChar)

/-- Drop everything up to and including the first `}`; `none` when there is
no `}`. -/
def dropThroughBrace : List Char → Option (List Char)
  | [] => none
  | c :: cs => if c == rbraceChar then some cs else dropThroughBrace cs

/-- `remove_namespace` (uima.py line 760): `re.sub('^.*?}', '', name)` — the
non-greedy anchored pattern removes the shortest prefix ending in the first
`}` (one substitution at most, since the pattern is anchored), or leaves the
string unchanged when it contains no `}`. -/
def remove_namespace (name : String) : String :=
  match dropThroughBrace name.data with
  | some rest => String.mk rest
  | none => name

/-- Python `str.strip()` whitespace set. -/
def isPySpace (c : Char) : Bool :=
  c == ' ' || c == '\t' || c == '\n' || c == '\r' ||
    c == Char.ofNat 11 || c == Char.ofNat 12

/-- Python `str.strip()`. -/
def pyStrip (s : String) : String :=
  String.mk (((s.data.dropWhile isPySpace).reverse.dropWhile isPySpace).reverse)

/-- Value of a non-empty all-digit character list. -/
def digitsVal : List Char → Option Nat
  | [] => none
  | cs => if cs.all Char.isDigit then
      some (cs.foldl (fun acc c => 10 * acc + (c.toNat - '0'.toNat)) 0)
    else none

/-- Model of CPython `int(str)`: strip whitespace, optional sign, decimal
digits.  (CPython additionally accepts underscore group separators and
non-ASCII decimal digits; the claims only exercise plain decimal strings and
plainly unparseable strings, where this model agrees.) -/
def pyParseInt (s : String) : Option Int :=
  let t := ((s.data.dropWhile isPySpace).reverse.dropWhile isPySpace).reverse
  match t with
  | '+' :: ds => (digitsVal ds).map Int.ofNat
  | '-' :: ds => (digitsVal ds).map (fun n => -(n : Int))
  | ds => (digitsVal ds).map Int.ofNat

/-- Hex digit value (codepoint arithmetic: 48–57 are the digits, 97–102
lower-case a–f, 65–70 upper-case A–F). -/
def hexVal (c : Char) : Option Nat :=
  let n := c.toNat
  if 48 ≤ n ∧ n ≤ 57 then some (n - 48)
  else if 97 ≤ n ∧ n ≤ 102 then some (n - 87)
  else if 65 ≤ n ∧ n ≤ 70 then some (n - 55)
  else none

/-- Percent-decoding of `urllib.parse.unquote` (single-byte fragment; the
pipeline's attribute values decode within ASCII, multi-byte UTF-8 sequences
are not reassembled here and are not exercised by any claim). -/
def unquoteChars : List Char → List Char
  | '%' :: h1 :: h2 :: rest =>
    match hexVal h1, hexVal h2 with
    | some a, some b => Char.ofNat (16 * a + b) :: unquoteChars rest
    | _, _ => '%' :: unquoteChars (h1 :: h2 :: rest)
  | c :: rest => c :: unquoteChars rest
  | [] => []

/-- `urllib.parse.unquote` on a string. -/
def pyUnquote (s : String) : String := String.mk (unquoteChars s.data)

/-- Split a character list at every delimiter character, keeping empty
pieces — the semantics shared by `re.split` and `str.split(sep)`. -/
def splitCharsGo (p : Char → Bool) : List Char → List Char → List (List Char)
  | [], acc => [acc.reverse]
  | c :: cs, acc =>
    if p c then acc.reverse :: splitCharsGo p cs [] else splitCharsGo p cs (c :: acc)

/-- Split a string at every character satisfying `p`. -/
def pySplitBy (p : Char → Bool) (s : String) : List String :=
  (splitCharsGo p s.data []).map String.mk

/-- Delimiters of `re.split(r',|\t|;', value)` (uima.py line 499). -/
def isUriDelim (c : Char) : Bool := c == ',' || c == '\t' || c == ';'

/-! ### Python values, dicts and defaultdicts -/

/-- Exception classes distinguished by the source. -/
inductive PyErr where
  | typeError
  | valueError
  | keyError
  | indexError
  | attributeError
deriving DecidableEq, Repr

/-- Decidable equality of `Except` results (needed to evaluate concrete
pipeline runs inside proofs). -/
instance {ε α : Type} [DecidableEq ε] [DecidableEq α] : DecidableEq (Except ε α) := fun a b =>
  match a, b with
  | .ok x, .ok y =>
    if h : x = y then .isTrue (by rw [h]) else .isFalse (by intro hc; cases hc; exact h rfl)
  | .error x, .error y =>
    if h : x = y then .isTrue (by rw [h]) else .isFalse (by intro hc; cases hc; exact h rfl)
  | .ok _, .error _ => .isFalse (by intro hc; cases hc)
  | .error _, .ok _ => .isFalse (by intro hc; cases hc)

/-- A Python attribute value as it occurs in this pipeline: a plain string, a
list of strings, or a set of strings (modelled as an insertion-ordered
duplicate-free list).  Python `==` never identifies values of different
shapes (`'x' == ['x']` is `False`), matching constructor distinctness. -/
inductive PyVal where
  | str (s : String)
  | list (xs : List String)
  | set (xs : List String)
deriving DecidableEq, Repr

/-- An insertion-ordered Python dict `str → PyVal` with unique keys. -/
abbrev Attrs := List (String × PyVal)

/-- Dict lookup. -/
def aGet : Attrs → String → Option PyVal
  | [], _ => none
  | (k', v') :: rest, k => if k' == k then some v' else aGet rest k

/-- Dict key membership. -/
def aHasKey (a : Attrs) (k : String) : Bool := (aGet a k).isSome

/-- Dict assignment: update in place when the key exists (keeping its
position, as Python dicts do), otherwise append at the end. -/
def aSet : Attrs → String → PyVal → Attrs
  | [], k, v => [(k, v)]
  | (k', v') :: rest, k, v =>
    if k' == k then (k', v) :: rest else (k', v') :: aSet rest k v

/-- Dict deletion (no-op when the key is absent; use `pyDictDel` where the
source would raise `KeyError`). -/
def aDel : Attrs → String → Attrs
  | [], _ => []
  | (k', v') :: rest, k => if k' == k then rest else (k', v') :: aDel rest k

/-- Python `del d[k]`: raises `KeyError` when the key is absent. -/
def pyDictDel (a : Attrs) (k : String) : Except PyErr Attrs :=
  if aHasKey a k then .ok (aDel a k) else .error .keyError

/-- Python truthiness of an attribute value. -/
def pyValTruthy : PyVal → Bool
  | .str s => !s.isEmpty
  | .list xs => !xs.isEmpty
  | .set xs => !xs.isEmpty

/-- Python `dict ==`: order-insensitive equality of key/value sets. -/
def pyAttrsEq (a b : Attrs) : Bool :=
  a.all (fun kv => aGet b kv.1 == some kv.2) &&
    b.all (fun kv => aGet a kv.1 == some kv.2)

/-- A `defaultdict(list)` keyed by strings. -/
abbrev DDict := List (String × List String)

/-- Lookup in a defaultdict (without creating the key). -/
def ddGet : DDict → String → Option (List String)
  | [], _ => none
  | (k', v') :: rest, k => if k' == k then some v' else ddGet rest k

/-- Key membership. -/
def ddHasKey (d : DDict) (k : String) : Bool := (ddGet d k).isSome

/-- `d[k].append(v)` on a defaultdict: create the entry at the end when the
key is new. -/
def ddAppend : DDict → String → String → DDict
  | [], k, v => [(k, [v])]
  | (k', vs) :: rest, k, v =>
    if k' == k then (k', vs ++ [v]) :: rest else (k', vs) :: ddAppend rest k v

/-- `d[k].extend(vs)` on a defaultdict. -/
def ddExtend : DDict → String → List String → DDict
  | [], k, vs => [(k, vs)]
  | (k', vs') :: rest, k, vs =>
    if k' == k then (k', vs' ++ vs) :: rest else (k', vs') :: ddExtend rest k vs

/-- Deletion (keys of interest are always present at the call sites). -/
def ddDel : DDict → String → DDict
  | [], _ => []
  | (k', v') :: rest, k => if k' == k then rest else (k', v') :: ddDel rest k

/-- `d[k].pop()`: remove and return the last element of the entry's list,
keeping the (possibly now empty) entry. -/
def ddPopLast : DDict → String → Option String × DDict
  | [], _ => (none, [])
  | (k', vs) :: rest, k =>
    if k' == k then
      match vs.getLast? with
      | some v => (some v, (k', vs.dropLast) :: rest)
      | none => (none, (k', vs) :: rest)
    else
      let (r, d') := ddPopLast rest k
      (r, (k', vs) :: d')

/-- Association-list lookup on a plain `List (String × String)` table. -/
def lookupStr : List (String × String) → String → Option String
  | [], _ => none
  | (k', v') :: rest, k => if k' == k then some v' else lookupStr rest k

/-! ### Constants of uima.py -/

def CLASS_STRING : String := "class"

def INCLUDE_ID_WITH_TAGS : List String := ["ocrpage", "sentence"]

def ANNOTATION_IS_TAG_NAME : List String := ["ocrpage", "sentence"]

def EXCLUDE_TAG_NAMES : List String := ["quicktreenode"]

def PRESERVE_ID_FROM_TAGS : List String := ["sentence", "ocrpage"]

def SENTENCE_TAG : String :=
  "\x7bhttp:///de/tudarmstadt/ukp/dkpro/core/api/segmentation/type.ecore\x7dSentence"

def OCR_PAGE_TAG : String :=
  "\x7bhttp:///org/texttechnologylab/annotation/ocr.ecore\x7dOCRPage"

def SOFA_TAG : String := "\x7bhttp:///uima/cas.ecore\x7dSofa"

def TYPE_NAMESPACE : String := "\x7bhttp:///org/texttechnologylab/annotation/type.ecore\x7d"

def WIKIPEDIA_LINK : String :=
  "\x7bhttp:///org/hucompute/textimager/uima/type/wikipedia.ecore\x7dWikipediaLink"

def EXPECTABLE_ATTRIBUTES : List String :=
  ["pageId", "timexValue", "value", "identifier", "Target", "WikiData", "isInstance", "id"]

def GENERIC_NAMED_ENTITY_CLASS_INDEX : List (String × String) :=
  [("loc", "location_place"), ("misc", "miscellaneous"),
   ("org", "organization"), ("per", "person_humanbeing")]

def NE_CLASS_PRIORITY : List String := ["Plant_Flora", "Animal_Fauna", "Taxon"]

def HTML_DATA_MODEL_STRING : String := "data-probability-model"

def HTML_DATA_SCORE_STRING : String := "data-probability-score"

def PAGE_ID : String := "pageId"

def URI_STRING : String := "uri"

def VALUE_STRING : String := "value"

def PATO_URI_KEY : String := "PATO_uri"

def SCORE_STRING : String := "score"

def REMOVED_STRING : String := "-REMOVED"

def XMI_ID_KEY : String := "\x7bhttp://www.omg.org/XMI\x7did"

/-! ### Hand-compiled regular expressions -/

/-- If `pre` is a prefix of `cs`, return the remainder. -/
def dropPre : List Char → List Char → Option (List Char)
  | [], cs => some cs
  | _ :: _, [] => none
  | p :: ps, c :: cs => if p == c then dropPre ps cs else none

/-- Does `pre ++ <any one char> ++ post` match at the head of `cs`?  (An
unescaped `.` in the source patterns matches any character.) -/
def dotHereMatch (pre post : List Char) (cs : List Char) : Bool :=
  match dropPre pre cs with
  | some (_ :: rest2) => (dropPre post rest2).isSome
  | _ => false

/-- `re.search` of `pre ++ . ++ post` anywhere in the text. -/
def dotSearch (pre post : List Char) : List Char → Bool
  | [] => dotHereMatch pre post []
  | c :: cs => dotHereMatch pre post (c :: cs) || dotSearch pre post cs

/-- Does the string contain a `_` with a later occurrence of `.xml`?
This is exactly when `re.search(r'^.*_(.*)\.xml', s)` succeeds. -/
def pageIdMatch : List Char → Bool
  | [] => false
  | c :: cs => (c == '_' && charsHasSub ('.' :: 'x' :: 'm' :: 'l' :: []) cs) || pageIdMatch cs

/-- Start positions of `needle` inside `cs`. -/
def subStarts (needle : List Char) (cs : List Char) : List Nat :=
  (List.range (cs.length + 1)).filter (fun i => charsStartWith needle (cs.drop i))

/-- `re.sub(r'^.*_(.*)\.xml', r'\g<1>', s)` (uima.py line 563).  Greedy
backtracking picks the last `_` that still has a `.xml` after it, and then
the last `.xml` after that `_`; the matched span (from the start of the
string to the end of that `.xml`) is replaced by the captured group. -/
def pageIdSub (s : String) : String :=
  let cs := s.data
  let xs := subStarts ('.' :: 'x' :: 'm' :: 'l' :: []) cs
  let us := (List.range cs.length).filter
    (fun i => cs.getD i ' ' == '_' && xs.any (fun j => i + 1 ≤ j))
  match us.getLast? with
  | none => s
  | some i =>
    match (xs.filter (fun j => i + 1 ≤ j)).getLast? with
    | none => s
    | some j => String.mk ((cs.drop (i + 1)).take (j - (i + 1)) ++ cs.drop (j + 4))

/-- The identifying regular expressions of `RELEVANT_ATTRIBUTES`. -/
inductive RegexId where
  | wikidataUrl   -- r'wikidata.org'
  | biofidUrl     -- r'biofid.de/bio-ontologies'
  | wikidataId    -- r'^Q[0-9]+$'
  | pageIdR       -- r'^.*_(.*)\.xml'
  | httpUri       -- r'^http'
deriving DecidableEq, Repr

/-- `re.search(pattern, s)` truthiness for each identifying regex. -/
def regexMatch : RegexId → String → Bool
  | .wikidataUrl, s => dotSearch "wikidata".data "org".data s.data
  | .biofidUrl, s => dotSearch "biofid".data "de/bio-ontologies".data s.data
  | .wikidataId, s =>
    match s.data with
    | 'Q' :: rest => !rest.isEmpty && rest.all Char.isDigit
    | _ => false
  | .pageIdR, s => pageIdMatch s.data
  | .httpUri, s => charsStartWith "http".data s.data

/-! ### get_scoring_models_and_values (uima.py lines 649–679) -/

/-- Is `q` a valid start of the group of `re.search(r'.?([01].[0-9]*)$', s)`:
a `0`/`1`, followed by one arbitrary character, followed by digits running to
the end of the string? -/
def validScoreIdx (cs : List Char) (q : Nat) : Bool :=
  match cs.get? q with
  | some c => (c == '0' || c == '1') && q + 1 < cs.length && (cs.drop (q + 2)).all Char.isDigit
  | none => false

/-- Leftmost valid group start. -/
def firstValidScoreIdx (cs : List Char) : Option Nat :=
  (List.range cs.length).find? (validScoreIdx cs)

/-- `re.search(r'.?([01].[0-9]*)$', s)` and `.group(1)`.  `re.search` takes
the leftmost match start; at that start the greedy `.?` prefers to consume
one character before the `[01]`. -/
def scoreSearch (s : String) : Option String :=
  let cs := s.data
  match firstValidScoreIdx cs with
  | none => none
  | some q0 =>
    let p := q0 - 1
    let q := if validScoreIdx cs (p + 1) then p + 1 else p
    some (String.mk (cs.drop q))

/-- Python `lst[i]` with negative-index wrap-around. -/
def pyIndex (l : List String) (i : Int) : Except PyErr String :=
  let j : Int := if i < 0 then i + l.length else i
  if 0 ≤ j ∧ j < l.length then
    .ok (l.getD j.toNat "")
  else .error .indexError

/-- `get_scoring_models_and_values` (lines 649–679).  The initial
`isinstance(value, str) and isinstance(value, list) and isinstance(value, set)`
guard of the source is always false (a value cannot be all three at once) and
is therefore not represented.  A string argument is split at `;`; a list/set
argument is iterated as is.  For every element containing `score`, the model
name is the *previous* element (Python `value_list[index - 1]`, which is the
last element when `index == 0`); a model name containing `-REMOVED` is
skipped; otherwise the score literal is extracted with
`re.search(r'.?([01].[0-9]*)$', element).group(1)` — raising
`AttributeError` when the pattern does not match — and truncated to its
first 4 characters.  Returns `(model, score)` pairs. -/
def get_scoring_models_and_values (value : PyVal) : Except PyErr (List (String × String)) := do
  let value_list : List String :=
    match value with
    | .str s => pySplitBy (· == ';') s
    | .list xs => xs
    | .set xs => xs
  let contains_score := value_list.any (fun el => strContains el SCORE_STRING)
  if !contains_score then return []
  value_list.enum.foldlM (fun acc iel => do
    let (index, el) := iel
    if strContains el SCORE_STRING then
      let score_model ← pyIndex value_list ((index : Int) - 1)
      if strContains score_model REMOVED_STRING then
        return acc
      else
        match scoreSearch el with
        | none => throw .attributeError
        | some g => return acc ++ [(score_model, String.mk (g.data.take 4))]
    else
      return acc) []

/-! ### Attribute normalization (uima.py lines 492–565, 688–707) -/

/-- `get_elements_contain_substring` (lines 593–603) on the flat string lists
this pipeline produces (the nested-container recursion of the source never
sees nesting here): collect, as a Python set — modelled as an
insertion-ordered duplicate-free list — the elements matching the regex. -/
def getElementsMatching (rid : RegexId) (xs : List String) : List String :=
  xs.foldl (fun acc e =>
    if regexMatch rid e && !acc.contains e then acc ++ [e] else acc) []

/-- `separate_container_values_in_enumerated_attributes` (lines 688–707):
a scalar value is left alone; a list/set of more than one element is fanned
out into `name-0, name-1, …` (the old entry deleted, the new keys
dict-assigned), a singleton is collapsed to its element, an empty container
is deleted. -/
def separate_container (attributes : Attrs) (attribute_name : String) : Attrs :=
  match aGet attributes attribute_name with
  | none => attributes
  | some (.str _) => attributes
  | some (.list xs) | some (.set xs) =>
    match xs with
    | [] => aDel attributes attribute_name
    | [x] => aSet attributes attribute_name (.str x)
    | _ =>
      (xs.enum).foldl
        (fun at2 iv => aSet at2 (attribute_name ++ "-" ++ toString iv.1) (.str iv.2))
        (aDel attributes attribute_name)

/-- One semantic attribute definition (the `Attribute` dataclass). -/
structure RelAttr where
  name : String
  identifying_regex : Option RegexId
  attribute_key : Option String
deriving DecidableEq, Repr

/-- `RELEVANT_ATTRIBUTES` (lines 196–205), in priority order. -/
def RELEVANT_ATTRIBUTES : List RelAttr :=
  [⟨"wikidata", some .wikidataUrl, none⟩,
   ⟨"biofid-uri", some .biofidUrl, none⟩,
   ⟨"wikidata-id", some .wikidataId, none⟩,
   ⟨PAGE_ID, some .pageIdR, none⟩,
   ⟨HTML_DATA_SCORE_STRING, none, some SCORE_STRING⟩,
   ⟨HTML_DATA_MODEL_STRING, none, some "model"⟩,
   ⟨URI_STRING, some .httpUri, none⟩,
   ⟨CLASS_STRING, none, some CLASS_STRING⟩]

/-- Phase 1 of `normalize_attributes` (lines 493–503): for each expected raw
attribute present, percent-decode it; split it at `,`/tab/`;` when it is a
URI list (`'http://' in value and ',' in value or ';' in value`, with
Python's `and`-before-`or` precedence); file the piece(s) into the
`found_attributes` defaultdict.  Indexing a non-string value raises. -/
def foundPhase (attributes : Attrs) : Except PyErr DDict :=
  EXPECTABLE_ATTRIBUTES.foldlM (fun fd att => do
    match aGet attributes att with
    | none => return fd
    | some (.str raw) =>
      let value := pyUnquote raw
      if (strContains value "http://" && strContains value ",") || strContains value ";" then
        return ddExtend fd att (pySplitBy isUriDelim value)
      else
        return ddAppend fd att value
    | some _ => throw .typeError) []

/-- The geonames block (lines 505–507): pop the `id` entry's last value and
append a canonical GeoNames URI under `uri`. -/
def geoPhase (fd : DDict) : Except PyErr DDict :=
  if ddHasKey fd "id" then
    match ddPopLast fd "id" with
    | (some gid, fd') => .ok (ddAppend fd' URI_STRING ("https://sws.geonames.org/" ++ gid ++ "/"))
    | (none, _) => .error .indexError
  else .ok fd

/-- Per-value classification (lines 522–531). -/
def classifyOne (fd : DDict) (attribute_value : String) : DDict :=
  let lowered := pyLower attribute_value
  if strContains attribute_value "biofid.de/bio-ontologies" then
    ddAppend fd "biofid-uri" attribute_value
  else if strContains attribute_value "wikidata.org" then
    ddAppend fd "wikidata" attribute_value
  else if strContains attribute_value "obolibrary.org" then
    ddAppend fd URI_STRING attribute_value
  else
    match lookupStr GENERIC_NAMED_ENTITY_CLASS_INDEX lowered with
    | some long => ddAppend fd CLASS_STRING long
    | none => fd

/-- One `n ∈ ['value', 'identifier']` step of the value block (lines
510–533).  When scoring pairs are found they are appended and the loop
`continue`s — so the raw entry is *not* deleted; otherwise every value is
classified and then the raw entry is deleted. -/
def valueStep (fd : DDict) (n : String) : Except PyErr DDict := do
  match ddGet fd n with
  | none => return fd
  | some v =>
    let scoring ← get_scoring_models_and_values (.list v)
    if !scoring.isEmpty then
      return scoring.foldl (fun fd2 ms =>
        ddAppend (ddAppend fd2 HTML_DATA_SCORE_STRING ms.2) HTML_DATA_MODEL_STRING ms.1) fd
    else
      return ddDel (v.foldl classifyOne fd) n

/-- The value block (lines 509–533), guarded on a present `value` entry. -/
def valuePhase (fd : DDict) : Except PyErr DDict := do
  if ddHasKey fd VALUE_STRING then
    let fd1 ← valueStep fd VALUE_STRING
    valueStep fd1 "identifier"
  else
    return fd

/-- The inner definition scan of the relevant-attributes loop (lines
539–553): try each definition in priority order; a regex definition collects
matching strings, a key definition passes the raw value through on a name
match; the first non-empty result is filed under the definition's name and
ends the scan; `separate_container` runs after *every* definition, matched
or not, before the `break`.  Returns the new attribute dict and the
`delete_attribute_after_processing` flag. -/
def relInner (an : String) (av : List String) : List RelAttr → Attrs → Bool → Attrs × Bool
  | [], new, del => (new, del)
  | ra :: rest, new, del =>
    let newValue : PyVal :=
      match ra.attribute_key with
      | none =>
        match ra.identifying_regex with
        | some rid => .set (getElementsMatching rid av)
        | none => .set []
      | some _ => if an == ra.name then .list av else .list []
    let matched := pyValTruthy newValue
    let del2 := if matched && ra.name == an then false else del
    let new2 := if matched then aSet new ra.name newValue else new
    let new3 := separate_container new2 ra.name
    if matched then (new3, del2) else relInner an av rest new3 del2

/-- The outer relevant-attributes loop (lines 536–556), iterating the found
entries in insertion order; `del new_attributes[attribute_name]` raises
`KeyError` when an earlier `separate_container` call already renamed the
entry away. -/
def relLoop : DDict → Attrs → Except PyErr Attrs
  | [], new => .ok new
  | (an, av) :: rest, new => do
    let (new1, del) := relInner an av RELEVANT_ATTRIBUTES new true
    let new2 ← if del then pyDictDel new1 an else pure new1
    relLoop rest new2

/-- The `Target → wikipedia-title` rename (lines 558–560); the replacement
value is read back from `found_attributes`, as a list. -/
def targetPhase (fd : DDict) (new : Attrs) : Except PyErr Attrs :=
  if aHasKey new "Target" then
    match ddGet fd "Target" with
    | some vs => .ok (aDel (aSet new "wikipedia-title" (.list vs)) "Target")
    | none => .error .keyError
  else .ok new

/-- The pageId reduction (lines 562–563): `re.sub` on the scalar value. -/
def pageIdPhase (new : Attrs) : Except PyErr Attrs :=
  match aGet new PAGE_ID with
  | none => .ok new
  | some (.str s) => .ok (aSet new PAGE_ID (.str (pageIdSub s)))
  | some _ => .error .typeError

/-- `normalize_attributes` (lines 492–565), assembled from its phases.  The
`new_attributes = deepcopy(found_attributes)` of line 535 is the
defaultdict's entries re-read as list values. -/
def normalize_attributes (attributes : Attrs) : Except PyErr Attrs := do
  let fd ← foundPhase attributes
  let fd ← geoPhase fd
  let fd ← valuePhase fd
  let new0 : Attrs := fd.map (fun kv => (kv.1, PyVal.list kv.2))
  let new1 ← relLoop fd new0
  let new2 ← targetPhase fd new1
  pageIdPhase new2

/-! ### Data model: annotations and the annotation index

The `Annotation` objects of the source are shared and mutated through
several index lists; they are modelled as an arena (`List Annot`), and every
index structure stores arena positions, so that Python object identity is
position equality and a mutation through one view is seen by all views.
(`Annot` stands for the source's `Annotation` class.) -/

structure Annot where
  id : Option String
  begin : Int
  end_ : Int
  name : String
  attributes : Attrs
  self_closing : Bool
deriving DecidableEq, Repr

/-- Arena default; out-of-range indices never occur in pipeline-built
states. -/
def dummyAnnot : Annot := ⟨none, 0, 0, "", [], false⟩

/-- Arena read. -/
def agetI (ar : List Annot) (i : Nat) : Annot := ar.getD i dummyAnnot

/-- Arena write (object mutation). -/
def asetI (ar : List Annot) (i : Nat) (a : Annot) : List Annot := ar.set i a

/-- A parsed XML element: tag plus raw string attributes. -/
structure XmlElem where
  tag : String
  attrib : List (String × String)
deriving DecidableEq, Repr

/-- `elem.get(key)`. -/
def xmlGet (e : XmlElem) (k : String) : Option String := lookupStr e.attrib k

/-- The `AnnotationList` class (lines 717–757): the per-span sets, keyed in
the source by the string `'{begin}-{end}'` — injective on the non-negative
offsets the pipeline handles, hence modelled as the pair.  The per-span
Python `set` holds distinct objects (identity equality), modelled as the
insertion-ordered list of arena indices. -/
structure AnnotationList where
  arena : List Annot
  spans : List ((Int × Int) × List Nat)
deriving DecidableEq, Repr

def emptyAnnotationList : AnnotationList := ⟨[], []⟩

/-- Add an index to a span's member set (a fresh object is never already a
member). -/
def spanAppend : List ((Int × Int) × List Nat) → Int × Int → Nat →
    List ((Int × Int) × List Nat)
  | [], k, i => [(k, [i])]
  | (k', v') :: rest, k, i =>
    if k' == k then (k', v' ++ [i]) :: rest else (k', v') :: spanAppend rest k i

/-- `int(entity.get(...))`: `int(None)` raises `TypeError`, `int` of a
non-numeric string raises `ValueError`. -/
def pyIntOfOpt : Option String → Except PyErr Int
  | none => .error .typeError
  | some s =>
    match pyParseInt s with
    | some n => .ok n
    | none => .error .valueError

/-- `AnnotationList.add` (lines 734–748): the `try` covers both `int`
conversions and catches only `TypeError` (missing attribute → silently
dropped); a `ValueError` (present but unparseable offset) propagates.  An
element whose `value` attribute equals its own namespace-stripped tag is
dropped.  Otherwise a new `Annotation` is arena-allocated and appended to
its span's member set. -/
def annListAdd (al : AnnotationList) (entity : XmlElem) : Except PyErr AnnotationList :=
  match pyIntOfOpt (xmlGet entity "begin") with
  | .error .typeError => .ok al
  | .error e => .error e
  | .ok b =>
    match pyIntOfOpt (xmlGet entity "end") with
    | .error .typeError => .ok al
    | .error e => .error e
    | .ok en =>
      if (match xmlGet entity VALUE_STRING with
          | some v => v == remove_namespace entity.tag
          | none => false) then .ok al
      else
        let a : Annot := ⟨xmlGet entity XMI_ID_KEY, b, en, entity.tag,
          entity.attrib.map (fun kv => (kv.1, PyVal.str kv.2)), false⟩
        .ok ⟨al.arena ++ [a], spanAppend al.spans (b, en) al.arena.length⟩

/-! ### Document scanning (lines 211–333) -/

/-- One event of the streaming parse: a matched element, or the point where
the parser raises `XMLSyntaxError` (elements after it are never yielded). -/
inductive ParseItem where
  | elem (e : XmlElem)
  | syntaxErr
deriving DecidableEq, Repr

/-- `fast_iter` (lines 305–315): feed each yielded element to the callback;
an `XMLSyntaxError` raised by the parser is caught and logged, ending the
pass with the state accumulated so far; any other exception raised by the
callback (e.g. `ValueError` from `AnnotationList.add`) propagates. -/
def fast_iter {St : Type} (cb : St → XmlElem → Except PyErr St) :
    List ParseItem → St → Except PyErr St
  | [], st => .ok st
  | .syntaxErr :: _, st => .ok st
  | .elem e :: rest, st => do fast_iter cb rest (← cb st e)

/-- `process_annotation` (lines 256–265): an element carrying `sofaString`
is the document text; every other matched element goes to
`AnnotationList.add`. -/
def process_annotation_cb (st : AnnotationList × List String) (e : XmlElem) :
    Except PyErr (AnnotationList × List String) :=
  match xmlGet e "sofaString" with
  | some s => .ok (st.1, st.2 ++ [s])
  | none => do
    let al ← annListAdd st.1 e
    .ok (al, st.2)

/-- The comment map of `enrich_annotated_text_with_annotation_comments`:
keyed by the `reference` attribute (which may be absent, i.e. `None`). -/
abbrev CommentMap := List (Option String × List (String × String))

/-- Dict assignment on the comment map. -/
def cmSet : CommentMap → Option String → List (String × String) → CommentMap
  | [], k, v => [(k, v)]
  | (k', v') :: rest, k, v =>
    if k' == k then (k', v) :: rest else (k', v') :: cmSet rest k v

/-- Dict `.get` on the comment map. -/
def cmGet : CommentMap → Option String → Option (List (String × String))
  | [], _ => none
  | (k', v') :: rest, k => if k' == k then some v' else cmGet rest k

/-- Collection callback of the comment pass (lines 322–323). -/
def collect_comment_cb (cm : CommentMap) (e : XmlElem) : Except PyErr CommentMap :=
  .ok (cmSet cm (xmlGet e "reference") e.attrib)

/-- Application of comment records to one span's members (lines 327–332):
an annotation whose id has a comment record with `key == 'PATO_uri'` gets
its `value` attribute overwritten by the comment's `value` (whose absence
would raise `KeyError`). -/
def enrich_span (cm : CommentMap) : List Nat → List Annot → Except PyErr (List Annot)
  | [], ar => .ok ar
  | i :: rest, ar => do
    let a := agetI ar i
    match cmGet cm a.id with
    | none => enrich_span cm rest ar
    | some data =>
      if lookupStr data "key" == some PATO_URI_KEY then
        match lookupStr data VALUE_STRING with
        | some v =>
          enrich_span cm rest (asetI ar i {a with attributes := aSet a.attributes VALUE_STRING (.str v)})
        | none => throw .keyError
      else enrich_span cm rest ar

/-- `enrich_annotated_text_with_annotation_comments` (lines 318–332), with
the comment pass's parse stream supplied separately (the source re-streams
the same file restricted to the `AnnotationComment` tag). -/
def enrich_comments (al : AnnotationList) (commentItems : List ParseItem) :
    Except PyErr AnnotationList := do
  let cm ← fast_iter collect_comment_cb commentItems []
  let ar ← al.spans.foldlM (fun ar kv => enrich_span cm kv.2 ar) al.arena
  return ⟨ar, al.spans⟩

/-! ### Duplicate removal (lines 568–590, 764–777) -/

/-- Positional pairs of `itertools.combinations(lst, 2)`. -/
def combinations2 {α : Type} : List α → List (α × α)
  | [] => []
  | x :: xs => xs.map (fun y => (x, y)) ++ combinations2 xs

/-- Python `set.add` on an index set, modelled insertion-ordered. -/
def setAddNat (l : List Nat) (x : Nat) : List Nat :=
  if l.contains x then l else l ++ [x]

/-- `Annotation.has_same_position` (lines 797–798). -/
def has_same_position (a b : Annot) : Bool :=
  a.begin == b.begin && a.end_ == b.end_

/-- The membership test `elem1_name not in NE_CLASS_PRIORITY` of
`get_prioritized_element` (line 765) — the function is called with
`Annotation` *objects* (line 576), not names, and Python list membership
compares each string of `NE_CLASS_PRIORITY` with the object via `==`, which
falls back to identity and is always `False`.  So the guard always fires. -/
def annotInNePriorityList (_a : Annot) : Bool := false

/-- `get_prioritized_element` (lines 764–777) as it is actually invoked
(with two `Annotation` objects): the `not in` guard is always true, so the
function always returns the empty string; the loop body below the guard
(which would raise `TypeError`, testing `ne in elem1_name` on an object) is
unreachable. -/
def get_prioritized_element (elem1 elem2 : Annot) : String :=
  if !(annotInNePriorityList elem1) || !(annotInNePriorityList elem2) then ""
  else ""

/-- The per-span body of `remove_double_annotations` (lines 569–588): for
every positional pair sharing the exact span, remove by taxonomic priority
when `get_prioritized_element` names a winner (it never does, see above),
else, when same-named, remove the one with fewer attributes (the first of
the pair on a tie). -/
def dedupMembers (ar : List Annot) (members : List Nat) : List Nat :=
  if members.length < 2 then members
  else
    let rems := (combinations2 members).foldl (fun rem ij =>
      let a := agetI ar ij.1
      let b := agetI ar ij.2
      if has_same_position a b then
        let pn := get_prioritized_element a b
        if pn != "" then
          (if pn == a.name then setAddNat rem ij.2 else setAddNat rem ij.1)
        else if a.name == b.name then
          (if a.attributes.length > b.attributes.length then setAddNat rem ij.2
           else setAddNat rem ij.1)
        else rem
      else rem) []
    members.filter (fun i => !rems.contains i)

/-- `remove_double_annotations` (lines 568–590). -/
def remove_double_annotations (al : AnnotationList) : AnnotationList :=
  ⟨al.arena, al.spans.map (fun kv => (kv.1, dedupMembers al.arena kv.2))⟩

/-! ### The rendering priority key (lines 801–826) -/

/-- `sort_by_priority_and_position` (lines 801–826), returning
`current_position - priority_modification`.  The source computes with the
float literals 0.1 / 0.2 / 0.3 (the tier), + 0.05 (an end tag closing here),
− 0.025 (a zero-width annotation); these are the exact rationals
4/40, 8/40, 12/40, 2/40 and 1/40, so the priority modification is computed
in units of 1/40 and the key is the exact rational
`(40·current_position − modification₄₀)/40` — mathematically equal to the
source's `current_position - priority_modification` (and producing the same
order: all key comparisons the pipeline makes are between modifications
differing by at least 1/40, far above double rounding error at realistic
positions). -/
def priority_modification40 (elem : Annot) (current_position : Int) : Int :=
  (if strContains elem.name SENTENCE_TAG then 4
   else if strContains elem.name OCR_PAGE_TAG then 8
   else if current_position == elem.end_ then 12
   else 0)
  + (if elem.end_ == current_position then 2 else 0)
  - (if elem.begin == elem.end_ then 1 else 0)

def sort_by_priority_and_position (elem : Annot) (current_position : Int) : ℚ :=
  mkRat (40 * current_position - priority_modification40 elem current_position) 40

/-- Stable insertion into an ascending list (equal keys keep earlier
elements first). -/
def insertByKey {α : Type} (key : α → ℚ) (x : α) : List α → List α
  | [] => [x]
  | y :: ys => if key x ≤ key y then x :: y :: ys else y :: insertByKey key x ys

/-- Python `sorted(lst, key=...)`: the unique stable ascending reordering. -/
def pySortedByKey {α : Type} (key : α → ℚ) : List α → List α
  | [] => []
  | x :: xs => insertByKey key x (pySortedByKey key xs)

/-! ### The per-position event index (lines 750–757) -/

/-- The dict `position → [annotation indices]` built by `get_annotations`. -/
abbrev Events := List (Int × List Nat)

/-- Dict lookup with the empty-list default used at the resolver's read
sites (the keys read there are always present, see `resolve_at_position`). -/
def evGet (ev : Events) (p : Int) : List Nat :=
  match ev with
  | [] => []
  | (k, v) :: rest => if k == p then v else evGet rest p

/-- Key membership (`pos in annotations`). -/
def evHasKey (ev : Events) (p : Int) : Bool :=
  match ev with
  | [] => false
  | (k, _) :: rest => k == p || evHasKey rest p

/-- In-place update of a position's list. -/
def evSet (ev : Events) (p : Int) (l : List Nat) : Events :=
  match ev with
  | [] => [(p, l)]
  | (k, v) :: rest => if k == p then (k, l) :: rest else (k, v) :: evSet rest p l

/-- `events[pos].extend(v)` on the building defaultdict. -/
def evExtend (ev : Events) (p : Int) (v : List Nat) : Events :=
  match ev with
  | [] => [(p, v)]
  | (k, v') :: rest => if k == p then (k, v' ++ v) :: rest else (k, v') :: evExtend rest p v

/-- `AnnotationList.get_annotations` (lines 750–757): every span's member
set is filed under both its begin and its end position (`k.split('-')` on
the key `'{begin}-{end}'` — so a zero-width span is filed twice at the same
position); the keys are sorted ascending and every position's list is sorted
stably by the priority key. -/
def get_annotations (al : AnnotationList) : Events :=
  let events := al.spans.foldl
    (fun ev kv => evExtend (evExtend ev kv.1.1 kv.2) kv.1.2 kv.2) []
  (pySortedByKey (fun kv => ((kv.1 : ℚ))) events).map
    (fun kv => (kv.1,
      pySortedByKey (fun i => sort_by_priority_and_position (agetI al.arena i) kv.1) kv.2))

/-! ### Positional resolution (lines 440–489) -/

/-- The first loop of `resolve_annotation` (lines 448–457): normalize the
attributes of every annotation beginning at this position; collect
annotations whose lower-cased name contains `other` into the removal set,
and wikipedia-link annotations into both the donor list and the removal
set. -/
def resolve_scan_phase (pos : Int) :
    List Nat → List Annot × List Nat × List Nat →
    Except PyErr (List Annot × List Nat × List Nat)
  | [], acc => .ok acc
  | i :: rest, (ar, rem, wik) => do
    let a := agetI ar i
    let ar1 ←
      if a.begin == pos then
        match normalize_attributes a.attributes with
        | .error e => throw e
        | .ok na => pure (asetI ar i {a with attributes := na})
      else pure ar
    let a1 := agetI ar1 i
    let lower_name := pyLower a1.name
    let rem1 := if strContains lower_name "other" then setAddNat rem i else rem
    let (wik1, rem2) :=
      if strContains lower_name "wikipedialink" then (wik ++ [i], setAddNat rem1 i)
      else (wik, rem1)
    resolve_scan_phase pos rest (ar1, rem2, wik1)

/-- The pair loop of `resolve_annotation` (lines 466–471): for each
positional pair with equal names whose attribute dicts are equal or differ
exactly in the presence of `wikipedia-title` (membership in the symmetric
difference of the key sets), mark the second for removal; when the first is
zero-width and the ids agree, set `self_closing` on the second — i.e. on the
annotation just marked for removal. -/
def resolve_pairs_phase : List (Nat × Nat) → List Annot → List Nat → List Annot × List Nat
  | [], ar, rem => (ar, rem)
  | ij :: rest, ar, rem =>
    let a := agetI ar ij.1
    let b := agetI ar ij.2
    if a.name == b.name &&
        (pyAttrsEq a.attributes b.attributes ||
          (aHasKey a.attributes "wikipedia-title" != aHasKey b.attributes "wikipedia-title")) then
      let rem1 := setAddNat rem ij.2
      let ar1 :=
        if a.begin == a.end_ && a.id == b.id then
          asetI ar ij.2 {b with self_closing := true}
        else ar
      resolve_pairs_phase rest ar1 rem1
    else resolve_pairs_phase rest ar rem

/-- The guard `if parent not in INCLUDE_ID_WITH_TAGS` (line 479) compares an
`Annotation` object against the tag-name strings and is always false, so the
guarded write always runs. -/
def annotEqTagStrings (_a : Annot) : Bool := false

/-- `e.attributes['wikipedia-title']` on the donor (raises `KeyError` when
absent; guarded at the call sites). -/
def getDonorTitle (ar : List Annot) (e : Nat) : Except PyErr PyVal :=
  match aGet (agetI ar e).attributes "wikipedia-title" with
  | some t => .ok t
  | none => .error .keyError

/-- The inner propagation loop (lines 475–480): every annotation of the
position whose namespace-stripped name is not (case-sensitively!) one of the
structural tag names receives the donor's `wikipedia-title`; then
`annotation_list[ann.end].index(ann)` locates the same object in the list at
its end position (raising when absent — the source's `list.index`
`ValueError`) and the write is repeated on it (`parent` is the very same
object, so in the arena model this is a second write to the same slot). -/
def wiki_title_inner (e : Nat) (ev : Events) : List Nat → List Annot → Except PyErr (List Annot)
  | [], ar => .ok ar
  | i :: rest, ar => do
    let a := agetI ar i
    if INCLUDE_ID_WITH_TAGS.contains (remove_namespace a.name) then
      wiki_title_inner e ev rest ar
    else
      let t ← getDonorTitle ar e
      let ar1 := asetI ar i {a with attributes := aSet a.attributes "wikipedia-title" t}
      let lst := evGet ev a.end_
      match lst.findIdx? (· == i) with
      | none => throw .valueError
      | some k =>
        let parent := lst.getD k 0
        if annotEqTagStrings (agetI ar1 parent) then
          wiki_title_inner e ev rest ar1
        else do
          let t2 ← getDonorTitle ar1 e
          let p := agetI ar1 parent
          let ar2 := asetI ar1 parent {p with attributes := aSet p.attributes "wikipedia-title" t2}
          wiki_title_inner e ev rest ar2

/-- The donor loop (lines 473–474): propagate from every collected
wikipedia-link annotation that holds a `wikipedia-title`. -/
def wiki_title_phase (ev : Events) (anns : List Nat) :
    List Nat → List Annot → Except PyErr (List Annot)
  | [], ar => .ok ar
  | e :: rest, ar => do
    if aHasKey (agetI ar e).attributes "wikipedia-title" then
      let ar1 ← wiki_title_inner e ev anns ar
      wiki_title_phase ev anns rest ar1
    else wiki_title_phase ev anns rest ar

/-- `list.remove`: drop the first occurrence. -/
def removeFirstNat : List Nat → Nat → List Nat
  | [], _ => []
  | x :: xs, y => if x == y then xs else x :: removeFirstNat xs y

/-- The removal loop (lines 482–487): drop each marked annotation from the
current position's list, and also from the list at its end position when
that position lies strictly ahead. -/
def resolve_removal_phase (pos : Int) (ar : List Annot) : List Nat → Events → Events
  | [], ev => ev
  | e :: rest, ev =>
    let ev1 := evSet ev pos (removeFirstNat (evGet ev pos) e)
    let a := agetI ar e
    let ev2 :=
      if a.end_ > pos then evSet ev1 a.end_ (removeFirstNat (evGet ev1 a.end_) e)
      else ev1
    resolve_removal_phase pos ar rest ev2

/-- `resolve_annotation` (lines 440–489), assembled from its phases; the
iteration order of the Python removal *set* is modelled as insertion order
(each index occurs in a list at most twice and is removed at most once per
marking, so the surviving content does not depend on that order).  Returns
the surviving index list of the position together with the mutated arena and
event index. -/
def resolve_at_position (pos : Int) (ar : List Annot) (ev : Events) :
    Except PyErr (List Nat × List Annot × Events) := do
  let anns := evGet ev pos
  if anns.isEmpty then return ([], ar, ev)
  let (ar1, rem1, wik) ← resolve_scan_phase pos anns (ar, [], [])
  if anns.length == 1 then
    if !rem1.isEmpty then return ([], ar1, ev)
    else return (anns, ar1, ev)
  else
    let (ar2, rem2) := resolve_pairs_phase (combinations2 anns) ar1 rem1
    let ar3 ← wiki_title_phase ev anns wik ar2
    let ev1 := resolve_removal_phase pos ar3 rem2 ev
    return (evGet ev1 pos, ar3, ev1)

/-! ### Markup rendering (lines 349–437, 710–714) -/

/-- One emission of the renderer: a start tag or an end tag for an arena
index at a position, or an escaped text character. -/
inductive TagEv where
  | startT (pos : Int) (i : Nat)
  | endT (pos : Int) (i : Nat)
  | ch (c : Char)
deriving DecidableEq, Repr

/-- Python `str()` of an attribute value interpolated into a tag (a list
renders as its `repr`; a set analogously, in insertion order). -/
def pyValRender : PyVal → String
  | .str s => s
  | .list xs => "[" ++ String.intercalate ", " (xs.map (fun x => "'" ++ x ++ "'")) ++ "]"
  | .set xs =>
    if xs.isEmpty then "set()"
    else "\x7b" ++ String.intercalate ", " (xs.map (fun x => "'" ++ x ++ "'")) ++ "\x7d"

/-- `generate_opening_tag_prefix` (lines 383–391): structural names open
under their own tag, everything else under `em`; without a `class`
attribute, a `class ="name"` (space before `=`, as in the source f-string)
is appended. -/
def generate_opening_tag_head (a : Annot) : String :=
  let tag := if ANNOTATION_IS_TAG_NAME.contains a.name then "<" ++ a.name else "<em"
  if !aHasKey a.attributes CLASS_STRING then tag ++ " class =\"" ++ a.name ++ "\""
  else tag

/-- Python string interpolation of a possibly-`None` id (the source would
hash a missing id only through `.encode()`, which raises; ids are present in
pipeline data). -/
def pyIdStr : Option String → String
  | none => "None"
  | some s => s

/-- `start_tag` (lines 394–414), with the content hash
`md5(id.encode()).hexdigest()[:10]` supplied as the function parameter `h`
(no claim depends on its values). -/
def start_tag (h : Option String → String) (a : Annot) : String :=
  let tag := generate_opening_tag_head a
  let annotation_id :=
    if PRESERVE_ID_FROM_TAGS.contains a.name then pyIdStr a.id else h a.id
  let tag := tag ++ " id=\"" ++ annotation_id ++ "\""
  let tag := a.attributes.foldl
    (fun t kv => t ++ " " ++ kv.1 ++ "=\"" ++ pyValRender kv.2 ++ "\"") tag
  let tag := if a.self_closing then tag ++ "/" else tag
  tag ++ ">"

/-- `end_tag` (lines 417–421). -/
def end_tag_str (a : Annot) : String :=
  if !INCLUDE_ID_WITH_TAGS.contains a.name then "</em>" else "</" ++ a.name ++ ">"

/-- `create_tag` (lines 349–359): namespace-strip and lower-case the name
(mutating the annotation), drop excluded tags — the source returns the empty
*list* there, which the caller's f-string renders as the literal `[]` —
and emit a start tag when the annotation begins here, an end tag
otherwise. -/
def create_tag (h : Option String → String) (pos : Int) (i : Nat) (ar : List Annot) :
    List TagEv × String × List Annot :=
  let a := agetI ar i
  let stripped := pyLower (remove_namespace a.name)
  let a1 := {a with name := stripped}
  let ar1 := asetI ar i a1
  if EXCLUDE_TAG_NAMES.contains stripped then ([], "[]", ar1)
  else if a1.begin == pos then ([.startT pos i], start_tag h a1, ar1)
  else ([.endT pos i], end_tag_str a1, ar1)

/-- The inner tag loop of `annotate_text` (lines 429–431) over the
survivors of one position. -/
def renderTags (h : Option String → String) (pos : Int) :
    List Nat → List Annot → List TagEv × String × List Annot
  | [], ar => ([], "", ar)
  | i :: rest, ar =>
    let (e1, s1, ar1) := create_tag h pos i ar
    let (e2, s2, ar2) := renderTags h pos rest ar1
    (e1 ++ e2, s1 ++ s2, ar2)

/-- `html.escape` with default quoting, per character. -/
def htmlEscapeChar (c : Char) : String :=
  if c == '&' then "&amp;"
  else if c == '<' then "&lt;"
  else if c == '>' then "&gt;"
  else if c == '"' then "&quot;"
  else if c == Char.ofNat 39 then "&#x27;"
  else String.mk [c]

/-- `close_open_ocrpage_tag` (lines 710–714). -/
def strEndsWith (s suffix : String) : Bool :=
  charsStartWith suffix.data.reverse s.data.reverse

def close_open_ocrpage_tag (text : String) : String :=
  if strContains text "<ocrpage>" && !(strEndsWith (pyStrip text) "</ocrpage>") then
    text ++ "</ocrpage>"
  else text

/-- The render result: the emission stream plus the final markup string. -/
structure RenderOut where
  events : List TagEv
  out : String
deriving DecidableEq, Repr

/-- The position loop of `annotate_text` (lines 427–433): resolve and render
at every position holding events, then emit the position's escaped
character. -/
def annotate_loop (h : Option String → String) :
    List (Nat × Char) → List Annot → Events → List TagEv → String →
    Except PyErr (List TagEv × String)
  | [], _ar, _ev, accE, accS => .ok (accE, accS)
  | pc :: rest, ar, ev, accE, accS => do
    let pos : Int := pc.1
    if evHasKey ev pos then
      let (surv, ar1, ev1) ← resolve_at_position pos ar ev
      let (tes, ts, ar2) := renderTags h pos surv ar1
      annotate_loop h rest ar2 ev1 (accE ++ tes ++ [.ch pc.2]) (accS ++ ts ++ htmlEscapeChar pc.2)
    else
      annotate_loop h rest ar ev (accE ++ [.ch pc.2]) (accS ++ htmlEscapeChar pc.2)

/-- `annotate_text` (lines 424–437). -/
def annotate_text (h : Option String → String) (text : String) (al : AnnotationList) :
    Except PyErr RenderOut := do
  let ev0 := get_annotations al
  let (evs, s) ← annotate_loop h text.data.enum al.arena ev0 [] ""
  return ⟨evs, close_open_ocrpage_tag s⟩

/-- `generate_pseudo_tei_from_file` (lines 211–253), from the streaming pass
onward (path checking, decompression and control-character cleaning happen
before the embedded part; the main pass and the comment pass are supplied as
the two parse streams).  `None` (no relevant content / no `sofaString`) is
`Option.none`. -/
def generate_pseudo_tei (h : Option String → String)
    (mainItems commentItems : List ParseItem) : Except PyErr (Option RenderOut) := do
  let (al, texts) ← fast_iter process_annotation_cb mainItems (emptyAnnotationList, [])
  if al.spans.isEmpty then return none
  match texts with
  | [] => return none
  | t :: _ => do
    let al1 ← enrich_comments al commentItems
    let al2 := remove_double_annotations al1
    let r ← annotate_text h t al2
    return some r

/-! ### Projections and fixtures used by the verification statements -/

/-- A stand-in for the md5-based id hash (no claim depends on its values). -/
def hashStub : Option String → String := fun _ => "h"

/-- Is the emission an end tag? -/
def isEndTag : TagEv → Bool
  | .endT _ _ => true
  | _ => false

/-- Is the emission a start tag? -/
def isStartTag : TagEv → Bool
  | .startT _ _ => true
  | _ => false

/-- Number of end tags in an emission stream. -/
def countEndTags (evs : List TagEv) : Nat := (evs.filter isEndTag).length

/-- Number of start tags in an emission stream. -/
def countStartTags (evs : List TagEv) : Nat := (evs.filter isStartTag).length

/-- The emission stream of a conversion result (empty on failure / no
output). -/
def tagStreamOf (r : Except PyErr (Option RenderOut)) : List TagEv :=
  match r with
  | .ok (some ro) => ro.events
  | _ => []

/-- The survivor list returned by a resolution result. -/
def resolveSurvivors (r : Except PyErr (List Nat × List Annot × Events)) : Option (List Nat) :=
  match r with
  | .ok (s, _, _) => some s
  | .error _ => none

/-- The `self_closing` flag of one arena slot after a resolution result. -/
def resolveSelfClosing (r : Except PyErr (List Nat × List Annot × Events)) (i : Nat) : Option Bool :=
  match r with
  | .ok (_, ar, _) => some (agetI ar i).self_closing
  | .error _ => none

/-- The `wikipedia-title` value of one arena slot after a resolution
result. -/
def resolveTitle (r : Except PyErr (List Nat × List Annot × Events)) (i : Nat) :
    Option (Option PyVal) :=
  match r with
  | .ok (_, ar, _) => some (aGet (agetI ar i).attributes "wikipedia-title")
  | .error _ => none

/-- The `wikipedia-title` value of one arena slot after the donor
propagation phase. -/
def wikiTitleOf (r : Except PyErr (List Annot)) (i : Nat) : Option (Option PyVal) :=
  match r with
  | .ok ar => some (aGet (agetI ar i).attributes "wikipedia-title")
  | .error _ => none

/-- A `Sofa` element carrying the two-character document text `"ab"`. -/
def sofaElem : XmlElem := ⟨SOFA_TAG, [("sofaString", "ab")]⟩

/-- A `Taxon` annotation element spanning the whole text `[0, 2)`. -/
def taxonElem : XmlElem :=
  ⟨TYPE_NAMESPACE ++ "Taxon", [("begin", "0"), ("end", "2"), (XMI_ID_KEY, "42")]⟩

/-- An annotation element with an unparseable `begin`. -/
def badBeginElem : XmlElem := ⟨TYPE_NAMESPACE ++ "Taxon", [("begin", "abc"), ("end", "2")]⟩

/-- An annotation element with no offsets at all. -/
def noBeginElem : XmlElem := ⟨TYPE_NAMESPACE ++ "Taxon", [("value", "x")]⟩

/-- An annotation element with a parseable `begin` but no `end`. -/
def noEndElem : XmlElem := ⟨TYPE_NAMESPACE ++ "Taxon", [("begin", "7")]⟩

/-- A wikipedia-link donor — an annotation ending at position 5 whose
attributes already hold a `wikipedia-title` — next to a sentence annotation
starting at 5, with the event lists of all three positions. -/
def wikiDonorArena : List Annot :=
  [⟨some "1", 0, 5, WIKIPEDIA_LINK, [("wikipedia-title", PyVal.str "Berlin")], false⟩,
   ⟨some "19", 5, 9, SENTENCE_TAG, [], false⟩]

def wikiDonorEvents : Events := [(0, [0]), (5, [0, 1]), (9, [1])]

/-! ## Supporting lemmas -/

theorem length_asetI (ar : List Annot) (i : Nat) (a : Annot) :
    (asetI ar i a).length = ar.length := by
  simp [asetI]

theorem agetI_asetI_self (ar : List Annot) (i : Nat) (a : Annot) (h : i < ar.length) :
    agetI (asetI ar i a) i = a := by
  induction ar generalizing i with
  | nil => simp at h
  | cons x xs ih =>
    cases i with
    | zero => rfl
    | succ n => exact ih n (Nat.lt_of_succ_lt_succ h)

theorem agetI_asetI_ne (ar : List Annot) (i j : Nat) (a : Annot) (h : i ≠ j) :
    agetI (asetI ar i a) j = agetI ar j := by
  induction ar generalizing i j with
  | nil => rfl
  | cons x xs ih =>
    cases i with
    | zero =>
      cases j with
      | zero => exact absurd rfl h
      | succ m => rfl
    | succ n =>
      cases j with
      | zero => rfl
      | succ m => exact ih n m (fun e => h (by rw [e]))

theorem evGet_evSet_self (ev : Events) (p : Int) (l : List Nat) :
    evGet (evSet ev p l) p = l := by
  induction ev with
  | nil => simp [evSet, evGet]
  | cons kv rest ih =>
    obtain ⟨k, v⟩ := kv
    by_cases h : k == p
    · simp [evSet, evGet, h]
    · simp only [evSet, evGet, h, if_false, Bool.false_eq_true]
      exact ih

theorem aGet_aSet_self (at0 : Attrs) (k : String) (v : PyVal) :
    aGet (aSet at0 k v) k = some v := by
  induction at0 with
  | nil => simp [aSet, aGet]
  | cons kv rest ih =>
    obtain ⟨k', v'⟩ := kv
    by_cases h : k' == k
    · simp [aSet, aGet, h]
    · simp only [aSet, aGet, h, if_false, Bool.false_eq_true]
      exact ih

theorem getD_findIdx_eq (l : List Nat) (x k : Nat) (h : l.findIdx? (· == x) = some k) :
    l.getD k 0 = x := by
  rw [List.findIdx?_eq_some_iff_getElem] at h
  obtain ⟨hk, hp, -⟩ := h
  rw [List.getD_eq_getElem?_getD, List.getElem?_eq_getElem hk]
  simpa using hp

theorem mkRat40_lt_iff (A B : Int) : mkRat A 40 < mkRat B 40 ↔ A < B := by
  rw [Rat.mkRat_eq_divInt, Rat.mkRat_eq_divInt, Rat.divInt_eq_div, Rat.divInt_eq_div]
  push_cast
  rw [div_lt_div_iff_of_pos_right (by norm_num : (0:ℚ) < 40)]
  exact Int.cast_lt

theorem sort_lt_sort_iff (a b : Annot) (p : Int) :
    sort_by_priority_and_position a p < sort_by_priority_and_position b p ↔
      priority_modification40 b p < priority_modification40 a p := by
  unfold sort_by_priority_and_position
  rw [mkRat40_lt_iff]
  omega

/-! ## Claim C3 — scoring normalization -/

/-- C3, counterexample: the claim states that normalizing the value
`"Flair;score=0.91234"` yields a probability score of `"0.912"`; the code
truncates the score literal to its first four characters, producing `"0.91"`
(under the semantic keys `data-probability-score` / `data-probability-model`),
so the claimed score value is wrong. -/
theorem c3_score_truncation_counterexample :
    normalize_attributes [(VALUE_STRING, PyVal.str "Flair;score=0.91234")] =
      .ok [(HTML_DATA_SCORE_STRING, PyVal.str "0.91"), (HTML_DATA_MODEL_STRING, PyVal.str "Flair")] ∧
    PyVal.str "0.91" ≠ PyVal.str "0.912" := by
  exact ⟨by decide, by decide⟩

/-- C3, amended: normalizing `"Flair;score=0.91234"` produces the scoring
model `Flair` and the score literal truncated to four characters, `"0.91"`
(not `"0.912"`); normalizing `"Flair-REMOVED;score=0.5"` produces no scoring
attributes at all (indeed no attributes at all). -/
theorem c3_scoring_normalization :
    normalize_attributes [(VALUE_STRING, PyVal.str "Flair;score=0.91234")] =
      .ok [(HTML_DATA_SCORE_STRING, PyVal.str "0.91"), (HTML_DATA_MODEL_STRING, PyVal.str "Flair")] ∧
    normalize_attributes [(VALUE_STRING, PyVal.str "Flair-REMOVED;score=0.5")] = .ok [] ∧
    get_scoring_models_and_values (PyVal.str "Flair;score=0.91234") = .ok [("Flair", "0.91")] ∧
    get_scoring_models_and_values (PyVal.str "Flair-REMOVED;score=0.5") = .ok [] := by
  refine ⟨by decide, by decide, by decide, by decide⟩

/-! ## Claim C9 — normalization is not idempotent -/

/-- C9, counterexample: `normalize_attributes` is not idempotent.  The
normalized output of `{'value': 'loc'}` is `{'class': 'location_place'}`,
and normalizing that output again yields the empty attribute set, not the
same set. -/
theorem c9_not_idempotent_counterexample :
    normalize_attributes [(VALUE_STRING, PyVal.str "loc")] =
      .ok [(CLASS_STRING, PyVal.str "location_place")] ∧
    normalize_attributes [(CLASS_STRING, PyVal.str "location_place")] = .ok [] ∧
    (Except.ok ([] : Attrs) : Except PyErr Attrs) ≠
      .ok [(CLASS_STRING, PyVal.str "location_place")] := by
  refine ⟨by decide, by decide, by decide⟩

/-- C9, amended: a second normalization does not return its input unchanged —
semantic output keys lie outside the raw allow-list `EXPECTABLE_ATTRIBUTES`,
and `normalize_attributes` maps any attribute set containing no allow-list
key (which is the case for every normalized set not containing `pageId`) to
the empty attribute set. -/
theorem c9_renormalization_drops_everything (attrs : Attrs)
    (h : ∀ k ∈ EXPECTABLE_ATTRIBUTES, aGet attrs k = none) :
    normalize_attributes attrs = .ok [] := by
  have h1 := h "pageId" (by simp [EXPECTABLE_ATTRIBUTES])
  have h2 := h "timexValue" (by simp [EXPECTABLE_ATTRIBUTES])
  have h3 := h "value" (by simp [EXPECTABLE_ATTRIBUTES])
  have h4 := h "identifier" (by simp [EXPECTABLE_ATTRIBUTES])
  have h5 := h "Target" (by simp [EXPECTABLE_ATTRIBUTES])
  have h6 := h "WikiData" (by simp [EXPECTABLE_ATTRIBUTES])
  have h7 := h "isInstance" (by simp [EXPECTABLE_ATTRIBUTES])
  have h8 := h "id" (by simp [EXPECTABLE_ATTRIBUTES])
  simp [normalize_attributes, foundPhase, EXPECTABLE_ATTRIBUTES, List.foldlM,
    h1, h2, h3, h4, h5, h6, h7, h8, geoPhase, valuePhase, relLoop, targetPhase,
    pageIdPhase, ddHasKey, ddGet, aHasKey, aGet, Except.bind, bind, pure, Except.pure]

/-- C9, witness for the amended theorem at a concrete normalized-looking
attribute set. -/
theorem c9_renormalization_drops_everything_witness :
    normalize_attributes [(CLASS_STRING, PyVal.str "taxon"), ("wikidata", PyVal.str "w")] =
      .ok [] :=
  c9_renormalization_drops_everything _ (by decide)

/-! ## Claim C5 — the taxonomic priority list never selects a winner -/

/-- C5, counterexample: two same-span annotations named `Plant_Flora` and
`Taxon` (both members of `NE_CLASS_PRIORITY`) are *both* retained by the
duplicate-removal pass — the claimed removal of the lower-priority one never
happens, because `get_prioritized_element` receives annotation objects and
its membership guard against the list of name strings always fails. -/
theorem c5_taxonomic_priority_counterexample :
    remove_double_annotations
        ⟨[⟨some "1", 0, 5, "Plant_Flora", [], false⟩, ⟨some "2", 0, 5, "Taxon", [], false⟩],
         [((0, 5), [0, 1])]⟩ =
      ⟨[⟨some "1", 0, 5, "Plant_Flora", [], false⟩, ⟨some "2", 0, 5, "Taxon", [], false⟩],
       [((0, 5), [0, 1])]⟩ ∧
    get_prioritized_element ⟨some "1", 0, 5, "Plant_Flora", [], false⟩
        ⟨some "2", 0, 5, "Taxon", [], false⟩ = "" := by
  exact ⟨by decide, rfl⟩

/-- C5, amended: `get_prioritized_element` always returns the empty string
(its guard compares annotation objects against name strings), so the
taxonomic-priority branch of the duplicate-removal pass never fires: two
same-span annotations with different names are both retained. -/
theorem c5_priority_never_selected (ar : List Annot) (sp : Int × Int) (i j : Nat)
    (hpos : has_same_position (agetI ar i) (agetI ar j) = true)
    (hname : (agetI ar i).name ≠ (agetI ar j).name) :
    get_prioritized_element (agetI ar i) (agetI ar j) = "" ∧
    remove_double_annotations ⟨ar, [(sp, [i, j])]⟩ = ⟨ar, [(sp, [i, j])]⟩ := by
  refine ⟨rfl, ?_⟩
  simp [remove_double_annotations, dedupMembers, combinations2, hpos, hname,
    get_prioritized_element, annotInNePriorityList, List.filter]

/-- C5, witness for the amended theorem. -/
theorem c5_priority_never_selected_witness :
    get_prioritized_element
        (agetI [⟨some "8", 1, 2, "Animal_Fauna", [], false⟩,
                ⟨some "9", 1, 2, "Taxon", [], false⟩] 0)
        (agetI [⟨some "8", 1, 2, "Animal_Fauna", [], false⟩,
                ⟨some "9", 1, 2, "Taxon", [], false⟩] 1) = "" ∧
    remove_double_annotations
        ⟨[⟨some "8", 1, 2, "Animal_Fauna", [], false⟩,
          ⟨some "9", 1, 2, "Taxon", [], false⟩], [((1, 2), [0, 1])]⟩ =
      ⟨[⟨some "8", 1, 2, "Animal_Fauna", [], false⟩,
        ⟨some "9", 1, 2, "Taxon", [], false⟩], [((1, 2), [0, 1])]⟩ :=
  c5_priority_never_selected _ (1, 2) 0 1 (by decide) (by decide)

/-! ## Claim C8 — exact duplicates retain exactly one -/

/-- C8: two annotations sharing the exact span with equal name and equal
attributes (hence agreeing on the deduplication identity `(begin, end,
name)`) are reduced by the duplicate-removal pass to exactly one — the first
of the pair is removed (its attribute count is not larger), the second
survives. -/
theorem c8_exact_duplicates_retain_one (ar : List Annot) (sp : Int × Int) (i j : Nat)
    (hij : i ≠ j)
    (hpos : has_same_position (agetI ar i) (agetI ar j) = true)
    (hname : (agetI ar i).name = (agetI ar j).name)
    (hattr : (agetI ar i).attributes = (agetI ar j).attributes) :
    remove_double_annotations ⟨ar, [(sp, [i, j])]⟩ = ⟨ar, [(sp, [j])]⟩ := by
  simp [remove_double_annotations, dedupMembers, combinations2, hpos, hname, hattr,
    get_prioritized_element, annotInNePriorityList, setAddNat, List.filter, Ne.symm hij]

/-- C8, witness. -/
theorem c8_exact_duplicates_retain_one_witness :
    remove_double_annotations
        ⟨[⟨some "5", 2, 6, "{t}Taxon", [("value", PyVal.str "v")], false⟩,
          ⟨some "6", 2, 6, "{t}Taxon", [("value", PyVal.str "v")], false⟩],
         [((2, 6), [0, 1])]⟩ =
      ⟨[⟨some "5", 2, 6, "{t}Taxon", [("value", PyVal.str "v")], false⟩,
        ⟨some "6", 2, 6, "{t}Taxon", [("value", PyVal.str "v")], false⟩],
       [((2, 6), [1])]⟩ :=
  c8_exact_duplicates_retain_one _ (2, 6) 0 1 (by decide) (by decide) (by decide) (by decide)

/-! ## Claim C2 — rendering priority tiers -/

/-- C2, counterexample: the claim orders sentence-structural annotations
before page-structural ones and puts annotations ending at the position into
the third tier; in the code a page annotation's key is strictly smaller than
a co-located sentence annotation's key (pages render first), and a
non-structural annotation ending at the position has a smaller key than
both. -/
theorem c2_priority_tier_counterexample :
    sort_by_priority_and_position ⟨some "2", 5, 20, OCR_PAGE_TAG, [], false⟩ 5 <
      sort_by_priority_and_position ⟨some "1", 5, 9, SENTENCE_TAG, [], false⟩ 5 ∧
    sort_by_priority_and_position ⟨some "3", 1, 5, TYPE_NAMESPACE ++ "Taxon", [], false⟩ 5 <
      sort_by_priority_and_position ⟨some "2", 5, 20, OCR_PAGE_TAG, [], false⟩ 5 := by
  exact ⟨by decide, by decide⟩

/-- C2, amended: lower key renders first, and the tiers are — non-structural
annotations ending exactly at the position first, then page-structural
annotations, then sentence-structural annotations, then all others; within
the sentence and page tiers an end tag precedes a start tag; a zero-width
non-structural annotation sorts between a non-structural close and a
non-structural open. -/
theorem c2_priority_tier_order (a b c : Annot) (p : Int) :
    ((strContains a.name SENTENCE_TAG = false) → (strContains a.name OCR_PAGE_TAG = false) →
      a.end_ = p →
      (strContains b.name SENTENCE_TAG = false) → (strContains b.name OCR_PAGE_TAG = true) →
      sort_by_priority_and_position a p < sort_by_priority_and_position b p) ∧
    ((strContains a.name SENTENCE_TAG = false) → (strContains a.name OCR_PAGE_TAG = true) →
      (strContains b.name SENTENCE_TAG = true) →
      sort_by_priority_and_position a p < sort_by_priority_and_position b p) ∧
    ((strContains a.name SENTENCE_TAG = true) →
      (strContains b.name SENTENCE_TAG = false) → (strContains b.name OCR_PAGE_TAG = false) →
      b.end_ ≠ p →
      sort_by_priority_and_position a p < sort_by_priority_and_position b p) ∧
    ((strContains a.name SENTENCE_TAG = true) → (strContains b.name SENTENCE_TAG = true) →
      a.end_ = p → b.end_ ≠ p →
      sort_by_priority_and_position a p < sort_by_priority_and_position b p) ∧
    ((strContains a.name SENTENCE_TAG = false) → (strContains a.name OCR_PAGE_TAG = true) →
      (strContains b.name SENTENCE_TAG = false) → (strContains b.name OCR_PAGE_TAG = true) →
      a.end_ = p → b.end_ ≠ p →
      sort_by_priority_and_position a p < sort_by_priority_and_position b p) ∧
    ((strContains a.name SENTENCE_TAG = false) → (strContains a.name OCR_PAGE_TAG = false) →
      a.end_ = p → a.begin ≠ a.end_ →
      (strContains b.name SENTENCE_TAG = false) → (strContains b.name OCR_PAGE_TAG = false) →
      b.begin = b.end_ → b.end_ = p →
      (strContains c.name SENTENCE_TAG = false) → (strContains c.name OCR_PAGE_TAG = false) →
      c.end_ ≠ p →
      sort_by_priority_and_position a p < sort_by_priority_and_position b p ∧
        sort_by_priority_and_position b p < sort_by_priority_and_position c p) := by
  refine ⟨?_, ?_, ?_, ?_, ?_, ?_⟩
  · intro h1 h2 h3 h4 h5
    rw [sort_lt_sort_iff]
    simp only [priority_modification40, h1, h2, h3, h4, h5]
    simp only [beq_self_eq_true, if_true, if_false, Bool.false_eq_true]
    split_ifs <;> omega
  · intro h1 h2 h3
    rw [sort_lt_sort_iff]
    simp only [priority_modification40, h1, h2, h3]
    simp only [if_true, if_false, Bool.false_eq_true]
    split_ifs <;> omega
  · intro h1 h2 h3 h4
    rw [sort_lt_sort_iff]
    have hb : (p == b.end_) = false := by rw [beq_eq_false_iff_ne]; exact fun e => h4 e.symm
    have hb2 : (b.end_ == p) = false := by rw [beq_eq_false_iff_ne]; exact h4
    simp only [priority_modification40, h1, h2, h3, hb, hb2]
    simp only [if_true, if_false, Bool.false_eq_true]
    split_ifs <;> omega
  · intro h1 h2 h3 h4
    rw [sort_lt_sort_iff]
    have hb2 : (b.end_ == p) = false := by rw [beq_eq_false_iff_ne]; exact h4
    simp only [priority_modification40, h1, h2, h3, hb2]
    simp only [beq_self_eq_true, if_true, if_false, Bool.false_eq_true]
    split_ifs <;> omega
  · intro h1 h2 h3 h4 h5 h6
    rw [sort_lt_sort_iff]
    have hb2 : (b.end_ == p) = false := by rw [beq_eq_false_iff_ne]; exact h6
    simp only [priority_modification40, h1, h2, h3, h4, h5, hb2]
    simp only [beq_self_eq_true, if_true, if_false, Bool.false_eq_true]
    split_ifs <;> omega
  · intro h1 h2 h3 h4 h5 h6 h7 h8 h9 h10 h11
    have ha4 : (a.begin == p) = false := by
      rw [beq_eq_false_iff_ne]; rw [← h3]; exact h4
    have hb7 : (b.begin == p) = true := by rw [beq_iff_eq, h7, h8]
    have hc11 : (c.end_ == p) = false := by rw [beq_eq_false_iff_ne]; exact h11
    have hc11' : (p == c.end_) = false := by
      rw [beq_eq_false_iff_ne]; exact fun e => h11 e.symm
    constructor
    · rw [sort_lt_sort_iff]
      simp only [priority_modification40, h1, h2, h3, h5, h6, h7, h8, ha4, hb7]
      simp only [beq_self_eq_true, if_true, if_false, Bool.false_eq_true]
      omega
    · rw [sort_lt_sort_iff]
      simp only [priority_modification40, h5, h6, h7, h8, h9, h10, hb7, hc11, hc11']
      simp only [beq_self_eq_true, if_true, if_false, Bool.false_eq_true]
      split_ifs <;> omega

/-- C2, witness: the amended tier order at concrete annotations (a
non-structural close at position 5, a page and a sentence starting there,
a zero-width and an opening annotation). -/
theorem c2_priority_tier_order_witness :
    sort_by_priority_and_position ⟨some "3", 1, 5, TYPE_NAMESPACE ++ "Location_Place", [], false⟩ 5 <
      sort_by_priority_and_position ⟨some "2", 5, 20, OCR_PAGE_TAG, [], false⟩ 5 ∧
    sort_by_priority_and_position ⟨some "2", 5, 20, OCR_PAGE_TAG, [], false⟩ 5 <
      sort_by_priority_and_position ⟨some "1", 5, 9, SENTENCE_TAG, [], false⟩ 5 ∧
    (sort_by_priority_and_position ⟨some "3", 1, 5, TYPE_NAMESPACE ++ "Location_Place", [], false⟩ 5 <
      sort_by_priority_and_position ⟨some "4", 5, 5, TYPE_NAMESPACE ++ "Taxon", [], false⟩ 5 ∧
    sort_by_priority_and_position ⟨some "4", 5, 5, TYPE_NAMESPACE ++ "Taxon", [], false⟩ 5 <
      sort_by_priority_and_position ⟨some "5", 5, 9, TYPE_NAMESPACE ++ "Taxon", [], false⟩ 5) :=
  ⟨(c2_priority_tier_order
      ⟨some "3", 1, 5, TYPE_NAMESPACE ++ "Location_Place", [], false⟩
      ⟨some "2", 5, 20, OCR_PAGE_TAG, [], false⟩
      ⟨some "5", 5, 9, TYPE_NAMESPACE ++ "Taxon", [], false⟩ 5).1
      (by decide) (by decide) (by decide) (by decide) (by decide),
   (c2_priority_tier_order
      ⟨some "2", 5, 20, OCR_PAGE_TAG, [], false⟩
      ⟨some "1", 5, 9, SENTENCE_TAG, [], false⟩
      ⟨some "5", 5, 9, TYPE_NAMESPACE ++ "Taxon", [], false⟩ 5).2.1
      (by decide) (by decide) (by decide),
   (c2_priority_tier_order
      ⟨some "3", 1, 5, TYPE_NAMESPACE ++ "Location_Place", [], false⟩
      ⟨some "4", 5, 5, TYPE_NAMESPACE ++ "Taxon", [], false⟩
      ⟨some "5", 5, 9, TYPE_NAMESPACE ++ "Taxon", [], false⟩ 5).2.2.2.2.2
      (by decide) (by decide) (by decide) (by decide) (by decide) (by decide)
      (by decide) (by decide) (by decide) (by decide) (by decide)⟩

/-! ## Claim C10 — unparseable offsets raise, absent offsets are dropped -/

/-- C10: an element whose `begin` attribute is present but not parseable as
an integer makes `AnnotationList.add` raise `ValueError`, which nothing in
the conversion pipeline catches (`fast_iter` catches only `XMLSyntaxError`),
so the whole conversion escapes to the caller with that error; an element
whose `begin` (or, with a parseable `begin`, whose `end`) is entirely absent
is silently dropped. -/
theorem c10_unparseable_offset_value_error (e : XmlElem) (al : AnnotationList) (s : String)
    (hsofa : xmlGet e "sofaString" = none)
    (hbegin : xmlGet e "begin" = some s)
    (hbad : pyParseInt s = none) :
    annListAdd al e = .error .valueError ∧
    (∀ (h : Option String → String) (rest citems : List ParseItem),
      generate_pseudo_tei h (.elem e :: rest) citems = .error .valueError) ∧
    (∀ (e2 : XmlElem) (al2 : AnnotationList), xmlGet e2 "begin" = none →
      annListAdd al2 e2 = .ok al2) ∧
    (∀ (e3 : XmlElem) (al3 : AnnotationList) (s3 : String) (n : Int),
      xmlGet e3 "begin" = some s3 → pyParseInt s3 = some n → xmlGet e3 "end" = none →
      annListAdd al3 e3 = .ok al3) := by
  have hadd : ∀ al' : AnnotationList, annListAdd al' e = .error .valueError := by
    intro al'
    simp [annListAdd, pyIntOfOpt, hbegin, hbad]
  refine ⟨hadd al, ?_, ?_, ?_⟩
  · intro h rest citems
    simp [generate_pseudo_tei, fast_iter, process_annotation_cb, hsofa, hadd,
      Except.bind, bind]
  · intro e2 al2 h2
    simp [annListAdd, pyIntOfOpt, h2]
  · intro e3 al3 s3 n h3 h4 h5
    simp [annListAdd, pyIntOfOpt, h3, h4, h5]

/-- C10, witness. -/
theorem c10_unparseable_offset_value_error_witness :
    annListAdd emptyAnnotationList badBeginElem = .error .valueError ∧
    generate_pseudo_tei hashStub [.elem badBeginElem] [] = .error .valueError ∧
    annListAdd emptyAnnotationList noBeginElem = .ok emptyAnnotationList ∧
    annListAdd emptyAnnotationList noEndElem = .ok emptyAnnotationList :=
  have t := c10_unparseable_offset_value_error badBeginElem emptyAnnotationList "abc"
    (by decide) (by decide) (by decide)
  ⟨t.1, t.2.1 hashStub [] [], t.2.2.1 noBeginElem emptyAnnotationList (by decide),
   t.2.2.2 noEndElem emptyAnnotationList "7" 7 (by decide) (by decide) (by decide)⟩

/-! ## Claim C7 — a parse error does not discard the pass's annotations -/

/-- C7, counterexample: a document whose stream ends in a mid-stream
`XMLSyntaxError` after a text payload and one annotation were already
yielded still converts: the pass's annotations are kept and a (partial)
output string is produced — the claim's "yields no annotations from that
pass, and no partial output string is produced" is false. -/
theorem c7_partial_output_counterexample :
    generate_pseudo_tei hashStub [.elem sofaElem, .elem taxonElem, .syntaxErr] [] =
      .ok (some ⟨[.startT 0 0, .ch 'a', .ch 'b'], "<em class =\"taxon\" id=\"h\">ab"⟩) ∧
    countStartTags (tagStreamOf (generate_pseudo_tei hashStub
      [.elem sofaElem, .elem taxonElem, .syntaxErr] [])) = 1 := by
  exact ⟨by decide, by decide⟩

/-- C7, amended: `fast_iter` catches the parser's `XMLSyntaxError` and only
logs it — the parse pass ends at the error point but keeps everything
accumulated before it; whatever elements follow the error are never seen.
Consequently a document with a text payload and annotations before the error
produces (partial) output, and only a document with no relevant content
before the error yields the no-output sentinel. -/
theorem c7_fast_iter_swallows_syntax_error {St : Type}
    (cb : St → XmlElem → Except PyErr St) (st st' : St) (pre post : List ParseItem)
    (h : fast_iter cb pre st = .ok st') :
    fast_iter cb (pre ++ ParseItem.syntaxErr :: post) st = .ok st' := by
  induction pre generalizing st with
  | nil =>
    simp only [fast_iter] at h
    cases h
    simp [fast_iter]
  | cons x xs ih =>
    cases x with
    | syntaxErr =>
      simp only [fast_iter] at h
      cases h
      simp [fast_iter]
    | elem e =>
      simp only [fast_iter] at h ⊢
      cases hcb : cb st e with
      | error er =>
        rw [hcb] at h
        exact absurd h (by intro hc; cases hc)
      | ok st1 =>
        rw [hcb] at h
        simpa [Except.bind, bind] using ih st1 h

/-- C7, witness for the amended theorem: the error point ends the pass but
the text payload collected before it is kept. -/
theorem c7_fast_iter_swallows_syntax_error_witness :
    fast_iter process_annotation_cb
        [.elem sofaElem, .syntaxErr, .elem taxonElem] (emptyAnnotationList, []) =
      .ok (emptyAnnotationList, ["ab"]) :=
  c7_fast_iter_swallows_syntax_error process_annotation_cb (emptyAnnotationList, [])
    (emptyAnnotationList, ["ab"]) [.elem sofaElem] [.elem taxonElem] (by decide)

/-! ## Claim C4 — the zero-width survivor is marked self-closing -/

/-- C4: a zero-width same-id same-name duplicate pair reaches positional
resolution as a *doubled single record*: `remove_double_annotations` first
removes one member of the pair (see C8), and `get_annotations` files a
zero-width span's member list under both halves of its `'{begin}-{end}'`
key — that is, twice at the same position (first conjunct).  Resolving that
reachable state, the `combinations` pair loop sees the degenerate pair
`(i, i)`, which passes the equal-name/equal-attribute test and the
zero-width same-id guard, so `self_closing` is set on the very record that
survives; the removal loop then drops one of the two occurrences.  The
annotation of a zero-width duplicate pair that survives positional
resolution is therefore marked self-closing, as claimed (the scan loop
normalizes the record's attributes once per occurrence, hence the two
normalization hypotheses). -/
theorem c4_self_closing_survivor (pos : Int) (ar : List Annot) (ev : Events)
    (i : Nat) (ida : Option String) (na : String) (attrs A A' : Attrs)
    (hi : agetI ar i = ⟨ida, pos, pos, na, attrs, false⟩)
    (hilen : i < ar.length)
    (hev : evGet ev pos = [i, i])
    (hnorm : normalize_attributes attrs = .ok A)
    (hnorm2 : normalize_attributes A = .ok A')
    (hAA : pyAttrsEq A' A' = true)
    (hother : strContains (pyLower na) "other" = false)
    (hwiki : strContains (pyLower na) "wikipedialink" = false) :
    (∀ (ar0 : List Annot) (q : Int) (j : Nat),
      get_annotations ⟨ar0, [((q, q), [j])]⟩ = [(q, [j, j])]) ∧
    resolveSurvivors (resolve_at_position pos ar ev) = some [i] ∧
    resolveSelfClosing (resolve_at_position pos ar ev) i = some true := by
  have e_ar1_i : agetI (asetI ar i ⟨ida, pos, pos, na, A, false⟩) i =
      ⟨ida, pos, pos, na, A, false⟩ :=
    agetI_asetI_self _ _ _ hilen
  have hilen1 : i < (asetI ar i ⟨ida, pos, pos, na, A, false⟩).length := by
    rw [length_asetI]; exact hilen
  have e_ar2_i :
      agetI (asetI (asetI ar i ⟨ida, pos, pos, na, A, false⟩) i ⟨ida, pos, pos, na, A', false⟩)
        i = ⟨ida, pos, pos, na, A', false⟩ :=
    agetI_asetI_self _ _ _ hilen1
  have hilen2 : i < (asetI (asetI ar i ⟨ida, pos, pos, na, A, false⟩) i
      ⟨ida, pos, pos, na, A', false⟩).length := by
    rw [length_asetI, length_asetI]; exact hilen
  have e_ar3_i :
      agetI (asetI (asetI (asetI ar i ⟨ida, pos, pos, na, A, false⟩) i
          ⟨ida, pos, pos, na, A', false⟩) i ⟨ida, pos, pos, na, A', true⟩) i =
        ⟨ida, pos, pos, na, A', true⟩ :=
    agetI_asetI_self _ _ _ hilen2
  have hscan : resolve_scan_phase pos [i, i] (ar, [], []) =
      .ok (asetI (asetI ar i ⟨ida, pos, pos, na, A, false⟩) i ⟨ida, pos, pos, na, A', false⟩,
        [], []) := by
    simp [resolve_scan_phase, hi, hnorm, e_ar1_i, hnorm2, e_ar2_i, hother, hwiki,
      Except.bind, bind, pure, Except.pure]
  have hpair : resolve_pairs_phase [(i, i)]
      (asetI (asetI ar i ⟨ida, pos, pos, na, A, false⟩) i ⟨ida, pos, pos, na, A', false⟩) [] =
      (asetI (asetI (asetI ar i ⟨ida, pos, pos, na, A, false⟩) i
          ⟨ida, pos, pos, na, A', false⟩) i ⟨ida, pos, pos, na, A', true⟩, [i]) := by
    simp [resolve_pairs_phase, e_ar2_i, hAA, setAddNat]
  have hrem : resolve_removal_phase pos
      (asetI (asetI (asetI ar i ⟨ida, pos, pos, na, A, false⟩) i
          ⟨ida, pos, pos, na, A', false⟩) i ⟨ida, pos, pos, na, A', true⟩) [i] ev =
      evSet ev pos [i] := by
    simp [resolve_removal_phase, e_ar3_i, hev, removeFirstNat]
  have hmain : resolve_at_position pos ar ev =
      .ok ([i],
        asetI (asetI (asetI ar i ⟨ida, pos, pos, na, A, false⟩) i
          ⟨ida, pos, pos, na, A', false⟩) i ⟨ida, pos, pos, na, A', true⟩,
        evSet ev pos [i]) := by
    simp [resolve_at_position, hev, hscan, combinations2, hpair, wiki_title_phase, hrem,
      evGet_evSet_self, Except.bind, bind, pure, Except.pure]
  refine ⟨?_, ?_, ?_⟩
  · intro ar0 q j
    simp [get_annotations, evExtend, pySortedByKey, insertByKey]
  · rw [hmain]; rfl
  · rw [hmain]; simp [resolveSelfClosing, e_ar3_i]

/-- C4, witness: the concrete zero-width `Location_Place` record doubled at
its position resolves to itself as survivor with `self_closing = true`. -/
theorem c4_self_closing_survivor_witness :
    resolveSurvivors (resolve_at_position 7
        [⟨some "9", 7, 7, TYPE_NAMESPACE ++ "Location_Place",
          [("value", PyVal.str "loc")], false⟩] [(7, [0, 0])]) = some [0] ∧
    resolveSelfClosing (resolve_at_position 7
        [⟨some "9", 7, 7, TYPE_NAMESPACE ++ "Location_Place",
          [("value", PyVal.str "loc")], false⟩] [(7, [0, 0])]) 0 = some true :=
  (c4_self_closing_survivor 7
    [⟨some "9", 7, 7, TYPE_NAMESPACE ++ "Location_Place",
      [("value", PyVal.str "loc")], false⟩] [(7, [0, 0])] 0
    (some "9") (TYPE_NAMESPACE ++ "Location_Place") [("value", PyVal.str "loc")]
    [(CLASS_STRING, PyVal.str "location_place")] []
    (by decide) (by decide) (by decide) (by decide) (by decide) (by decide)
    (by decide) (by decide)).2

/-! ## Claim C6 — wikipedia-title propagation -/

theorem attrWrite_shape (ar : List Annot) (i : Nat) (X : Attrs) (hil : i < ar.length)
    (s : Nat) :
    (agetI (asetI ar i {agetI ar i with attributes := X}) s).name = (agetI ar s).name ∧
    (agetI (asetI ar i {agetI ar i with attributes := X}) s).end_ = (agetI ar s).end_ := by
  by_cases hs : i = s
  · subst hs
    rw [agetI_asetI_self _ _ _ hil]
    exact ⟨rfl, rfl⟩
  · rw [agetI_asetI_ne _ _ _ _ hs]
    exact ⟨rfl, rfl⟩

theorem attrWrite_title_pres (ar : List Annot) (i : Nat) (t : PyVal) (hil : i < ar.length)
    (s : Nat)
    (h : aGet (agetI ar s).attributes "wikipedia-title" = some t) :
    aGet (agetI (asetI ar i {agetI ar i with attributes := aSet (agetI ar i).attributes "wikipedia-title" t}) s).attributes "wikipedia-title" = some t := by
  by_cases hs : i = s
  · subst hs
    rw [agetI_asetI_self _ _ _ hil]
    exact aGet_aSet_self _ _ _
  · rw [agetI_asetI_ne _ _ _ _ hs]
    exact h

theorem attrWrite_title_set (ar : List Annot) (i : Nat) (t : PyVal) (hil : i < ar.length) :
    aGet (agetI (asetI ar i {agetI ar i with attributes := aSet (agetI ar i).attributes "wikipedia-title" t}) i).attributes "wikipedia-title" = some t := by
  rw [agetI_asetI_self _ _ _ hil]
  exact aGet_aSet_self _ _ _

/-- Behaviour of the inner propagation loop under one donor `e` holding the
title `t`: the loop succeeds, preserves every slot's name and end position,
preserves the title wherever already set (every write writes `t` itself),
and sets it on every in-range non-structural member of the list. -/
theorem wiki_title_inner_spec (e : Nat) (ev : Events) (t : PyVal) :
    ∀ (lst : List Nat) (ar : List Annot),
    aGet (agetI ar e).attributes "wikipedia-title" = some t →
    (∀ i ∈ lst, i < ar.length) →
    (∀ i ∈ lst,
      INCLUDE_ID_WITH_TAGS.contains (remove_namespace (agetI ar i).name) = false →
      ((evGet ev (agetI ar i).end_).findIdx? (· == i)).isSome = true) →
    ∃ ar2, wiki_title_inner e ev lst ar = .ok ar2 ∧
      ar2.length = ar.length ∧
      (∀ s, (agetI ar2 s).name = (agetI ar s).name ∧ (agetI ar2 s).end_ = (agetI ar s).end_) ∧
      (∀ s, aGet (agetI ar s).attributes "wikipedia-title" = some t →
        aGet (agetI ar2 s).attributes "wikipedia-title" = some t) ∧
      (∀ i ∈ lst,
        INCLUDE_ID_WITH_TAGS.contains (remove_namespace (agetI ar i).name) = false →
        aGet (agetI ar2 i).attributes "wikipedia-title" = some t) := by
  intro lst
  induction lst with
  | nil =>
    intro ar hdon _ _
    exact ⟨ar, rfl, rfl, fun s => ⟨rfl, rfl⟩, fun s h => h, by simp⟩
  | cons i rest ih =>
    intro ar hdon hlen hfind
    have hilen : i < ar.length := hlen i (List.mem_cons_self i rest)
    by_cases hstruct :
        INCLUDE_ID_WITH_TAGS.contains (remove_namespace (agetI ar i).name) = true
    · obtain ⟨ar2, heq, hL, hshape, hpres, hset⟩ :=
        ih ar hdon (fun x hx => hlen x (List.mem_cons_of_mem i hx))
          (fun x hx hx2 => hfind x (List.mem_cons_of_mem i hx) hx2)
      refine ⟨ar2, ?_, hL, hshape, hpres, ?_⟩
      · simp only [wiki_title_inner, hstruct, if_true]
        exact heq
      · intro x hx helig
        rcases List.mem_cons.mp hx with h1 | h1
        · subst h1
          rw [hstruct] at helig
          cases helig
        · exact hset x h1 helig
    · have hstruct' :
          INCLUDE_ID_WITH_TAGS.contains (remove_namespace (agetI ar i).name) = false :=
        Bool.eq_false_iff.mpr hstruct
      have hfd := hfind i (List.mem_cons_self i rest) hstruct'
      obtain ⟨k, hk⟩ := Option.isSome_iff_exists.mp hfd
      have hparent : (evGet ev (agetI ar i).end_).getD k 0 = i := getD_findIdx_eq _ _ _ hk
      have hgd1 : getDonorTitle ar e = .ok t := by simp [getDonorTitle, hdon]
      set arW1 := asetI ar i {agetI ar i with attributes := aSet (agetI ar i).attributes "wikipedia-title" t} with harW1
      have hdon1 : aGet (agetI arW1 e).attributes "wikipedia-title" = some t :=
        attrWrite_title_pres ar i t hilen e hdon
      have hgd2 : getDonorTitle arW1 e = .ok t := by
        simp [getDonorTitle, hdon1]
      have hL1 : arW1.length = ar.length := length_asetI _ _ _
      have hilen1 : i < arW1.length := by rw [hL1]; exact hilen
      set arW2 := asetI arW1 i {agetI arW1 i with attributes := aSet (agetI arW1 i).attributes "wikipedia-title" t} with harW2
      have hL2' : arW2.length = ar.length := by
        rw [harW2, length_asetI, hL1]
      have hshape1 : ∀ s, (agetI arW1 s).name = (agetI ar s).name ∧
          (agetI arW1 s).end_ = (agetI ar s).end_ :=
        fun s => attrWrite_shape ar i (aSet (agetI ar i).attributes "wikipedia-title" t) hilen s
      have hshapeW2 : ∀ s, (agetI arW2 s).name = (agetI ar s).name ∧
          (agetI arW2 s).end_ = (agetI ar s).end_ := by
        intro s
        have h2 := attrWrite_shape arW1 i
          (aSet (agetI arW1 i).attributes "wikipedia-title" t) hilen1 s
        exact ⟨(h2.1).trans (hshape1 s).1, (h2.2).trans (hshape1 s).2⟩
      have hdon2 : aGet (agetI arW2 e).attributes "wikipedia-title" = some t :=
        attrWrite_title_pres arW1 i t hilen1 e hdon1
      have hsetW2 : aGet (agetI arW2 i).attributes "wikipedia-title" = some t :=
        attrWrite_title_set arW1 i t hilen1
      have hpresW2 : ∀ s, aGet (agetI ar s).attributes "wikipedia-title" = some t →
          aGet (agetI arW2 s).attributes "wikipedia-title" = some t := by
        intro s h
        exact attrWrite_title_pres arW1 i t hilen1 s (attrWrite_title_pres ar i t hilen s h)
      have hlen2 : ∀ x ∈ rest, x < arW2.length := by
        intro x hx
        rw [hL2']
        exact hlen x (List.mem_cons_of_mem i hx)
      have hfind2 : ∀ x ∈ rest,
          INCLUDE_ID_WITH_TAGS.contains (remove_namespace (agetI arW2 x).name) = false →
          ((evGet ev (agetI arW2 x).end_).findIdx? (· == x)).isSome = true := by
        intro x hx hel
        rw [(hshapeW2 x).2]
        apply hfind x (List.mem_cons_of_mem i hx)
        rw [← (hshapeW2 x).1]
        exact hel
      obtain ⟨ar2, heq2, hL2, hshape2, hpres2, hset2⟩ := ih arW2 hdon2 hlen2 hfind2
      refine ⟨ar2, ?_, ?_, ?_, ?_, ?_⟩
      · simp only [wiki_title_inner, hstruct', Bool.false_eq_true, if_false, hgd1,
          Except.bind, bind, hk, annotEqTagStrings, hparent, ← harW1, hgd2, ← harW2]
        exact heq2
      · rw [hL2, hL2']
      · intro s
        exact ⟨(hshape2 s).1.trans (hshapeW2 s).1, (hshape2 s).2.trans (hshapeW2 s).2⟩
      · intro s h
        exact hpres2 s (hpresW2 s h)
      · intro x hx hel
        rcases List.mem_cons.mp hx with h1 | h1
        · subst h1
          exact hpres2 x hsetW2
        · apply hset2 x h1
          rw [(hshapeW2 x).1]
          exact hel

/-- C6, counterexample: resolving position 5, where a wikipedia-link donor
carrying `wikipedia-title = "Berlin"` ends and a sentence annotation (raw
name `{…}Sentence`) begins, propagates the title onto the sentence
annotation: the structural check `remove_namespace(ann.name) not in
['ocrpage', 'sentence']` is case-sensitive and `"Sentence" ≠ "sentence"`,
so a structural annotation *does* receive a `wikipedia-title` attribute,
contradicting the claim's "never". -/
theorem c6_structural_title_counterexample :
    resolveSurvivors (resolve_at_position 5 wikiDonorArena wikiDonorEvents) = some [1] ∧
    resolveTitle (resolve_at_position 5 wikiDonorArena wikiDonorEvents) 1 =
      some (some (PyVal.str "Berlin")) ∧
    strContains (agetI wikiDonorArena 1).name SENTENCE_TAG = true ∧
    remove_namespace (agetI wikiDonorArena 1).name = "Sentence" := by
  exact ⟨by decide, by decide, by decide, by decide⟩

/-- C6, amended: during positional resolution, a donor holding a
`wikipedia-title` value propagates it onto *every* in-range co-located
annotation whose namespace-stripped name is not literally `ocrpage` or
`sentence` — in particular onto structural annotations whose name still
carries its raw capitalized form — and, since position lists share one
arena record per annotation, the update is equally visible at the
annotation's other boundary ("its paired record"). -/
theorem c6_title_propagation (ev : Events) (anns : List Nat) (e : Nat) (t : PyVal)
    (ar : List Annot) (i : Nat)
    (hdon : aGet (agetI ar e).attributes "wikipedia-title" = some t)
    (hlen : ∀ j ∈ anns, j < ar.length)
    (hfind : ∀ j ∈ anns,
      INCLUDE_ID_WITH_TAGS.contains (remove_namespace (agetI ar j).name) = false →
      ((evGet ev (agetI ar j).end_).findIdx? (· == j)).isSome = true)
    (hi : i ∈ anns)
    (helig : INCLUDE_ID_WITH_TAGS.contains (remove_namespace (agetI ar i).name) = false) :
    wikiTitleOf (wiki_title_phase ev anns [e] ar) i = some (some t) := by
  have hgd : aHasKey (agetI ar e).attributes "wikipedia-title" = true := by
    simp [aHasKey, hdon]
  obtain ⟨ar2, heq, hL, hshape, hpres, hset⟩ :=
    wiki_title_inner_spec e ev t anns ar hdon hlen hfind
  simp only [wiki_title_phase, hgd, if_true, heq, Except.bind, bind, wikiTitleOf]
  rw [hset i hi helig]

/-- C6, witness: a donor (slot 0) ending at position 5 with title `"T"`
propagates onto the non-structural receiver (slot 1). -/
theorem c6_title_propagation_witness :
    wikiTitleOf (wiki_title_phase [(9, [1]), (5, [0, 1])] [0, 1] [0]
        [⟨some "1", 0, 5, WIKIPEDIA_LINK, [("wikipedia-title", PyVal.str "T")], false⟩,
         ⟨some "2", 2, 9, "\x7bx\x7dThing", [], false⟩]) 1 =
      some (some (PyVal.str "T")) :=
  c6_title_propagation [(9, [1]), (5, [0, 1])] [0, 1] 0 (PyVal.str "T")
    [⟨some "1", 0, 5, WIKIPEDIA_LINK, [("wikipedia-title", PyVal.str "T")], false⟩,
     ⟨some "2", 2, 9, "\x7bx\x7dThing", [], false⟩] 1
    (by decide) (by decide) (by decide) (by decide) (by decide)

/-! ## Claim C1 — every opened tag closed exactly once -/

theorem countEndTags_append (a b : List TagEv) :
    countEndTags (a ++ b) = countEndTags a + countEndTags b := by
  simp [countEndTags, List.filter_append]

theorem asetI_oor (ar : List Annot) (i : Nat) (v : Annot) (h : ar.length ≤ i) :
    asetI ar i v = ar := by
  induction ar generalizing i with
  | nil => rfl
  | cons x xs ih =>
    cases i with
    | zero => simp at h
    | succ n =>
      show x :: xs.set n v = x :: xs
      rw [show xs.set n v = asetI xs n v from rfl, ih n (Nat.le_of_succ_le_succ h)]

theorem nameWrite_fields (ar : List Annot) (i : Nat) (N : String) (s : Nat) :
    (agetI (asetI ar i {agetI ar i with name := N}) s).begin = (agetI ar s).begin ∧
    (agetI (asetI ar i {agetI ar i with name := N}) s).end_ = (agetI ar s).end_ := by
  by_cases hil : i < ar.length
  · by_cases hs : i = s
    · subst hs
      rw [agetI_asetI_self _ _ _ hil]
      exact ⟨rfl, rfl⟩
    · rw [agetI_asetI_ne _ _ _ _ hs]
      exact ⟨rfl, rfl⟩
  · rw [asetI_oor _ _ _ (Nat.le_of_not_lt hil)]
    exact ⟨rfl, rfl⟩

/-- C1, counterexample: `annotate_text` renders positions `0 … len(text)-1`
only, so an annotation whose end offset equals the text length is opened but
never closed.  Converting the two-character text `"ab"` with one annotation
spanning `[0, 2)` emits one start tag and zero end tags — an opened tag
that is never closed, refuting the claimed per-position balance ("including
annotations whose end equals the length of the text"). -/
theorem c1_unclosed_tag_counterexample :
    generate_pseudo_tei hashStub [.elem sofaElem, .elem taxonElem] [] =
      .ok (some ⟨[.startT 0 0, .ch 'a', .ch 'b'], "<em class =\"taxon\" id=\"h\">ab"⟩) ∧
    countStartTags (tagStreamOf
      (generate_pseudo_tei hashStub [.elem sofaElem, .elem taxonElem] [])) = 1 ∧
    countEndTags (tagStreamOf
      (generate_pseudo_tei hashStub [.elem sofaElem, .elem taxonElem] [])) = 0 := by
  exact ⟨by decide, by decide, by decide⟩

theorem renderTags_cons (h : Option String → String) (pos : Int) (i : Nat)
    (rest : List Nat) (ar : List Annot) :
    (renderTags h pos (i :: rest) ar).1 =
      (create_tag h pos i ar).1 ++ (renderTags h pos rest (create_tag h pos i ar).2.2).1 := rfl

theorem create_tag_fst (h : Option String → String) (pos : Int) (i : Nat) (ar : List Annot) :
    (create_tag h pos i ar).1 =
      (if EXCLUDE_TAG_NAMES.contains (pyLower (remove_namespace (agetI ar i).name)) then []
       else if (agetI ar i).begin == pos then [TagEv.startT pos i]
       else [TagEv.endT pos i]) := by
  unfold create_tag
  split_ifs with h1 h2
  · simp_all
  · simp_all
  · simp_all

theorem create_tag_arena (h : Option String → String) (pos : Int) (i : Nat) (ar : List Annot) :
    (create_tag h pos i ar).2.2 =
      asetI ar i {agetI ar i with name := pyLower (remove_namespace (agetI ar i).name)} := by
  unfold create_tag
  by_cases h1 : EXCLUDE_TAG_NAMES.contains (pyLower (remove_namespace (agetI ar i).name)) = true
  · simp_all
  · by_cases h2 : ((agetI ar i).begin == pos) = true
    · simp_all
    · simp_all

/-- C1, amended: at every *rendered* position (the renderer visits positions
strictly below the text length), the number of end tags emitted equals the
number of surviving annotations at the position whose end equals the
position, whose begin does not (a zero-width survivor renders a start tag,
possibly self-closed, not an end tag), and whose namespace-stripped
lower-cased name is not in `EXCLUDE_TAG_NAMES`; annotations ending at the
text length are never closed (see the counterexample). -/
theorem c1_end_tag_count (h : Option String → String) (pos : Int) :
    ∀ (surv : List Nat) (ar : List Annot),
    (∀ i ∈ surv, (agetI ar i).begin = pos ∨ (agetI ar i).end_ = pos) →
    (∀ i ∈ surv, (agetI ar i).begin = pos ∨ surv.count i = 1) →
    countEndTags (renderTags h pos surv ar).1 =
      (surv.filter (fun i =>
        (agetI ar i).end_ == pos && !((agetI ar i).begin == pos) &&
        !(EXCLUDE_TAG_NAMES.contains (pyLower (remove_namespace (agetI ar i).name))))).length := by
  intro surv
  induction surv with
  | nil =>
    intro ar _ _
    rfl
  | cons i rest ih =>
    intro ar hpos hdup
    have hfields := nameWrite_fields ar i (pyLower (remove_namespace (agetI ar i).name))
    set ar1 := asetI ar i
      {agetI ar i with name := pyLower (remove_namespace (agetI ar i).name)} with har1
    have hpos1 : ∀ j ∈ rest, (agetI ar1 j).begin = pos ∨ (agetI ar1 j).end_ = pos := by
      intro j hj
      rcases hpos j (List.mem_cons_of_mem i hj) with h1 | h1
      · left
        rw [(hfields j).1]
        exact h1
      · right
        rw [(hfields j).2]
        exact h1
    have hdup1 : ∀ j ∈ rest, (agetI ar1 j).begin = pos ∨ rest.count j = 1 := by
      intro j hj
      rcases hdup j (List.mem_cons_of_mem i hj) with h1 | h1
      · left
        rw [(hfields j).1]
        exact h1
      · right
        rw [List.count_cons] at h1
        have hge : 0 < rest.count j := List.count_pos_iff.mpr hj
        omega
    have hfeq : ∀ j ∈ rest,
        ((agetI ar1 j).end_ == pos && !((agetI ar1 j).begin == pos) &&
          !(EXCLUDE_TAG_NAMES.contains (pyLower (remove_namespace (agetI ar1 j).name)))) =
        ((agetI ar j).end_ == pos && !((agetI ar j).begin == pos) &&
          !(EXCLUDE_TAG_NAMES.contains (pyLower (remove_namespace (agetI ar j).name)))) := by
      intro j hj
      by_cases hji : j = i
      · subst hji
        rcases hdup j (List.mem_cons_self j rest) with h1 | h1
        · have hb1 : ((agetI ar1 j).begin == pos) = true := by
            rw [beq_iff_eq, (hfields j).1]
            exact h1
          have hb0 : ((agetI ar j).begin == pos) = true := by
            rw [beq_iff_eq]
            exact h1
          simp [hb1, hb0]
        · exfalso
          rw [List.count_cons] at h1
          have hge : 0 < rest.count j := List.count_pos_iff.mpr hj
          simp at h1
          omega
      · rw [har1, agetI_asetI_ne _ _ _ _ (fun e => hji e.symm)]
    have hrest := ih ar1 hpos1 hdup1
    rw [List.filter_congr hfeq] at hrest
    rw [renderTags_cons, create_tag_fst, create_tag_arena, ← har1, countEndTags_append, hrest,
      List.filter_cons]
    by_cases hexcl :
        EXCLUDE_TAG_NAMES.contains (pyLower (remove_namespace (agetI ar i).name)) = true
    · have hpredi : ((agetI ar i).end_ == pos && !((agetI ar i).begin == pos) &&
          !(EXCLUDE_TAG_NAMES.contains (pyLower (remove_namespace (agetI ar i).name)))) =
            false := by
        rw [hexcl]
        simp
      rw [if_pos hexcl]
      simp only [countEndTags, List.filter_nil, List.length_nil, Nat.zero_add, hpredi,
        Bool.false_eq_true, if_false]
    · by_cases hbeg : ((agetI ar i).begin == pos) = true
      · have hpredi : ((agetI ar i).end_ == pos && !((agetI ar i).begin == pos) &&
            !(EXCLUDE_TAG_NAMES.contains (pyLower (remove_namespace (agetI ar i).name)))) =
              false := by
          rw [hbeg]
          simp
        rw [if_neg hexcl, if_pos hbeg]
        simp only [countEndTags, List.filter_cons, isEndTag, Bool.false_eq_true, if_false,
          List.filter_nil, List.length_nil, Nat.zero_add, hpredi]
      · have hend : ((agetI ar i).end_ == pos) = true := by
          rw [beq_iff_eq]
          rcases hpos i (List.mem_cons_self i rest) with h1 | h1
          · exact absurd (by rw [beq_iff_eq]; exact h1) hbeg
          · exact h1
        have hbeg' : ((agetI ar i).begin == pos) = false := Bool.eq_false_iff.mpr hbeg
        have hexcl' :
            EXCLUDE_TAG_NAMES.contains (pyLower (remove_namespace (agetI ar i).name)) = false :=
          Bool.eq_false_iff.mpr hexcl
        have hpredi : ((agetI ar i).end_ == pos && !((agetI ar i).begin == pos) &&
            !(EXCLUDE_TAG_NAMES.contains (pyLower (remove_namespace (agetI ar i).name)))) =
              true := by
          rw [hend, hbeg', hexcl']
          simp
        rw [if_neg hexcl, if_neg hbeg]
        simp only [countEndTags, List.filter_cons, isEndTag, eq_self_iff_true, if_true,
          List.filter_nil, List.length_cons, List.length_nil, Nat.zero_add, hpredi]
        omega

/-- C1, witness for the amended per-position count: one closing survivor,
one opening survivor and one excluded survivor at position 4 produce exactly
one end tag. -/
theorem c1_end_tag_count_witness :
    countEndTags (renderTags hashStub 4 [0, 1, 2]
      [⟨some "1", 1, 4, TYPE_NAMESPACE ++ "Taxon", [], false⟩,
       ⟨some "2", 4, 9, TYPE_NAMESPACE ++ "Location_Place", [], false⟩,
       ⟨some "3", 2, 4, TYPE_NAMESPACE ++ "QuickTreeNode", [], false⟩]).1 =
      ([0, 1, 2].filter (fun i =>
        (agetI [⟨some "1", 1, 4, TYPE_NAMESPACE ++ "Taxon", [], false⟩,
       ⟨some "2", 4, 9, TYPE_NAMESPACE ++ "Location_Place", [], false⟩,
       ⟨some "3", 2, 4, TYPE_NAMESPACE ++ "QuickTreeNode", [], false⟩] i).end_ == 4 &&
        !((agetI [⟨some "1", 1, 4, TYPE_NAMESPACE ++ "Taxon", [], false⟩,
       ⟨some "2", 4, 9, TYPE_NAMESPACE ++ "Location_Place", [], false⟩,
       ⟨some "3", 2, 4, TYPE_NAMESPACE ++ "QuickTreeNode", [], false⟩] i).begin == 4) &&
        !(EXCLUDE_TAG_NAMES.contains (pyLower (remove_namespace
          (agetI [⟨some "1", 1, 4, TYPE_NAMESPACE ++ "Taxon", [], false⟩,
       ⟨some "2", 4, 9, TYPE_NAMESPACE ++ "Location_Place", [], false⟩,
       ⟨some "3", 2, 4, TYPE_NAMESPACE ++ "QuickTreeNode", [], false⟩] i).name))))).length :=
  c1_end_tag_count hashStub 4 [0, 1, 2]
    [⟨some "1", 1, 4, TYPE_NAMESPACE ++ "Taxon", [], false⟩,
     ⟨some "2", 4, 9, TYPE_NAMESPACE ++ "Location_Place", [], false⟩,
     ⟨some "3", 2, 4, TYPE_NAMESPACE ++ "QuickTreeNode", [], false⟩]
    (by decide) (by decide)

end Uima
